import Mathlib

/-!
# Verification of the grid-based level layout router and 3D geometry assembler

Shallow embedding of the corridor router, layout repairer, wall carver,
POI marker builder, camera framing and object placer of the game generator
backend (`level-layout.service.ts` and the assembly service).

JavaScript numbers are modelled as rationals (`ℚ`); `Math.floor` and
`Math.round` are modelled exactly (`jsFloor`, `jsRound`).  Optional fields
are modelled with `Option`.  JS `Map`s built by successive `set` calls are
modelled by lookup of the *last* matching entry.
-/

/-- Meters per grid cell: `GRID_CELL_SIZE = 4` in `chat.interface.ts`. -/
def GRID_CELL_SIZE : ℚ := 4

/-- Wall height in meters: `WALL_HEIGHT = 4` in `chat.interface.ts`. -/
def WALL_HEIGHT : ℚ := 4

/-- JS `Math.floor` on a rational, returned as a rational. -/
def jsFloor (q : ℚ) : ℚ := ((⌊q⌋ : ℤ) : ℚ)

/-- JS `Math.round`: `⌊q + 1/2⌋`, i.e. halves round toward positive infinity. -/
def jsRound (q : ℚ) : ℚ := ((⌊q + 1/2⌋ : ℤ) : ℚ)

/-- `GridConfig` of `chat.interface.ts`. -/
structure GridConfig where
  cellSize : ℚ
  totalWidth : ℚ
  totalHeight : ℚ
deriving DecidableEq

/-- `GridRoom` of `chat.interface.ts`.  `tags := none` models a missing
`tags` field (the repairer defaults it).  The optional `material` override
is not touched by any function verified here and is omitted. -/
structure GridRoom where
  id : String
  name : String
  gridX : ℚ
  gridY : ℚ
  width : ℚ
  height : ℚ
  tags : Option (List String)
deriving DecidableEq

/-- `CorridorSegment` of `chat.interface.ts`. -/
structure CorridorSegment where
  startX : ℚ
  startY : ℚ
  endX : ℚ
  endY : ℚ
deriving DecidableEq

/-- `GridCorridor` of `chat.interface.ts`, with its legacy first/last point
fields.  `segments`/`widthCells` are `Option`s because raw generated input
may omit them. -/
structure GridCorridor where
  id : String
  fromRoom : String
  toRoom : String
  segments : Option (List CorridorSegment)
  widthCells : Option ℚ
  startX : Option ℚ
  startY : Option ℚ
  endX : Option ℚ
  endY : Option ℚ
deriving DecidableEq

/-- `GridPOI` of `chat.interface.ts`; `type` is one of
spawn/goal/treasure/checkpoint, modelled as a string. -/
structure GridPOI where
  id : String
  type : String
  roomId : String
  offsetX : ℚ
  offsetY : ℚ
deriving DecidableEq

/-- `GridLevelData` of `chat.interface.ts`.  A missing `rooms`, `pois` or
`criticalPath` field is modelled as the empty list (the code treats a
missing list and a too-short list identically); a missing `grid` is
`none`. -/
structure GridLevelData where
  name : String
  type : String
  theme : String
  grid : Option GridConfig
  rooms : List GridRoom
  corridors : List GridCorridor
  pois : List GridPOI
  criticalPath : List String
deriving DecidableEq

/-- The `from`/`to` edge records computed at the top of
`buildCorridorBetweenRooms`. -/
structure RectInfo where
  minX : ℚ
  maxX : ℚ
  minY : ℚ
  maxY : ℚ
  centerX : ℚ
  centerY : ℚ
deriving DecidableEq

/-- Result of `getOverlap`; `stop` models the source field `end`. -/
structure OverlapInfo where
  hasOverlap : Bool
  start : ℚ
  stop : ℚ
deriving DecidableEq

/-- `getOverlap` of `level-layout.service.ts` (lines 295-309). -/
def getOverlap (min1 max1 min2 max2 : ℚ) : OverlapInfo :=
  let overlapStart := max min1 min2
  let overlapEnd := min max1 max2
  ⟨decide (overlapStart < overlapEnd), overlapStart, overlapEnd⟩

/-- `buildVerticalCorridor` of `level-layout.service.ts` (lines 314-340). -/
def buildVerticalCorridor (fr toR : RectInfo) (overlapX : OverlapInfo) :
    List CorridorSegment :=
  let x := jsFloor ((overlapX.start + overlapX.stop) / 2)
  if fr.maxY ≤ toR.minY then
    [⟨x, fr.maxY, x, toR.minY⟩]
  else
    [⟨x, fr.minY, x, toR.maxY⟩]

/-- `buildHorizontalCorridor` of `level-layout.service.ts` (lines 345-371). -/
def buildHorizontalCorridor (fr toR : RectInfo) (overlapY : OverlapInfo) :
    List CorridorSegment :=
  let y := jsFloor ((overlapY.start + overlapY.stop) / 2)
  if fr.maxX ≤ toR.minX then
    [⟨fr.maxX, y, toR.minX, y⟩]
  else
    [⟨fr.minX, y, toR.maxX, y⟩]

/-- `buildLShapedCorridor` of `level-layout.service.ts` (lines 380-416). -/
def buildLShapedCorridor (fr toR : RectInfo) : List CorridorSegment :=
  let goingRight := decide (toR.centerX > fr.centerX)
  let goingDown := decide (toR.centerY > fr.centerY)
  let startX := if goingRight then fr.maxX else fr.minX
  let startY := jsFloor fr.centerY
  let endX := jsFloor toR.centerX
  let endY := if goingDown then toR.minY else toR.maxY
  let cornerX := endX
  let cornerY := startY
  [⟨startX, startY, cornerX, cornerY⟩, ⟨cornerX, cornerY, endX, endY⟩]

/-- Placeholder segment for `headD`/`getLastD`; `segments` below is always
nonempty (1 or 2 segments), so it is never read. -/
def dummySegment : CorridorSegment := ⟨0, 0, 0, 0⟩

/-- `buildCorridorBetweenRooms` of `level-layout.service.ts`
(lines 233-290). -/
def buildCorridorBetweenRooms (corridorId : String) (fromRoom toRoom : GridRoom)
    (widthCells : ℚ) : GridCorridor :=
  let fr : RectInfo :=
    ⟨fromRoom.gridX, fromRoom.gridX + fromRoom.width,
     fromRoom.gridY, fromRoom.gridY + fromRoom.height,
     fromRoom.gridX + fromRoom.width / 2, fromRoom.gridY + fromRoom.height / 2⟩
  let toR : RectInfo :=
    ⟨toRoom.gridX, toRoom.gridX + toRoom.width,
     toRoom.gridY, toRoom.gridY + toRoom.height,
     toRoom.gridX + toRoom.width / 2, toRoom.gridY + toRoom.height / 2⟩
  let overlapX := getOverlap fr.minX fr.maxX toR.minX toR.maxX
  let overlapY := getOverlap fr.minY fr.maxY toR.minY toR.maxY
  let segments :=
    if overlapX.hasOverlap then buildVerticalCorridor fr toR overlapX
    else if overlapY.hasOverlap then buildHorizontalCorridor fr toR overlapY
    else buildLShapedCorridor fr toR
  { id := corridorId
    fromRoom := fromRoom.id
    toRoom := toRoom.id
    segments := some segments
    widthCells := some widthCells
    startX := some (segments.headD dummySegment).startX
    startY := some (segments.headD dummySegment).startY
    endX := some (segments.getLastD dummySegment).endX
    endY := some (segments.getLastD dummySegment).endY }

/-- Placeholder room: `rooms[0]` / `rooms[rooms.length-1]` below are only
taken on nonempty room lists (the repairer requires at least 2 rooms). -/
def dummyRoom : GridRoom := ⟨"", "", 0, 0, 0, 0, none⟩

/-- `generateDefaultPOIs` of `level-layout.service.ts` (lines 421-445). -/
def generateDefaultPOIs (rooms : List GridRoom) : List GridPOI :=
  let entryRoom :=
    (rooms.find? (fun r => (r.tags.getD []).contains ("entry"))).getD
      (rooms.headD dummyRoom)
  let goalRoom :=
    (rooms.find? (fun r => (r.tags.getD []).contains ("goal"))).getD
      (rooms.getLastD dummyRoom)
  [⟨"poi_spawn", "spawn", entryRoom.id, 0, 0⟩,
   ⟨"poi_goal", "goal", goalRoom.id, 0, 0⟩]

/-- Room coercion step of `validateAndFixLayout` (lines 174-183):
`Math.round` on the position, `max(2, Math.round(·))` on the size, and a
missing `tags` defaults to `["mid"]` (a present empty list is kept: JS
arrays are truthy). -/
def fixRoom (room : GridRoom) : GridRoom :=
  { room with
    gridX := jsRound room.gridX
    gridY := jsRound room.gridY
    width := max 2 (jsRound room.width)
    height := max 2 (jsRound room.height)
    tags := some (room.tags.getD (["mid"])) }

/-- Lookup in the JS `Map` built by successive `set` calls over the room
list: the *last* room with the given id wins. -/
def mapGet (rooms : List GridRoom) (key : String) : Option GridRoom :=
  rooms.reverse.find? (fun r => r.id == key)

/-- JS `corridor.widthCells || 1`: missing or zero becomes 1. -/
def orOne (w : Option ℚ) : ℚ :=
  match w with
  | none => 1
  | some v => if v = 0 then 1 else v

/-- Grid config synthesized by `validateAndFixLayout` when absent
(lines 166-172). -/
def defaultGridConfig : GridConfig := ⟨GRID_CELL_SIZE, 30, 50⟩

/-- The body of the corridor-rebuilding loop of `validateAndFixLayout`
(lines 186-200): a corridor both of whose endpoints resolve in the room map
is rebuilt from the repaired rooms; otherwise it is dropped (`none`). -/
def corrStep (rooms : List GridRoom) (corridor : GridCorridor) :
    Option GridCorridor :=
  match mapGet rooms corridor.fromRoom, mapGet rooms corridor.toRoom with
  | some fromRoom, some toRoom =>
      some (buildCorridorBetweenRooms corridor.id fromRoom toRoom
        (orOne corridor.widthCells))
  | _, _ => none

/-- The success path of `validateAndFixLayout` (lines 165-219): grid-config
synthesis, room coercion, corridor rebuilding (dropping corridors with
unresolved endpoints), POI validation and critical-path defaulting. -/
def fixLevel (level : GridLevelData) : GridLevelData :=
  let grid := level.grid.getD defaultGridConfig
  let rooms := level.rooms.map fixRoom
  let fixedCorridors := level.corridors.filterMap (corrStep rooms)
  let pois0 := if level.pois.length < 2 then generateDefaultPOIs rooms else level.pois
  let hasSpawn := pois0.any (fun p => p.type == "spawn")
  let hasGoal := pois0.any (fun p => p.type == "goal")
  let pois := if hasSpawn && hasGoal then pois0 else generateDefaultPOIs rooms
  let criticalPath :=
    if level.criticalPath.length < 2 then rooms.map (fun r => r.id)
    else level.criticalPath
  { level with
    grid := some grid
    rooms := rooms
    corridors := fixedCorridors
    pois := pois
    criticalPath := criticalPath }

/-- `validateAndFixLayout` of `level-layout.service.ts` (lines 155-220).
The thrown errors are modelled with `Except`; a missing `layout.level`
aggregate is modelled by `none`. -/
def validateAndFixLayout (olevel : Option GridLevelData) :
    Except String GridLevelData :=
  match olevel with
  | none => Except.error ("Missing level in layout")
  | some level =>
    if level.rooms.length < 2 then Except.error ("At least 2 rooms required")
    else Except.ok (fixLevel level)

/-- A 3D point `[x, y, z]` with rational coordinates. -/
structure Vec3 where
  x : ℚ
  y : ℚ
  z : ℚ
deriving DecidableEq

/-- `gridToWorldX` of the assembly service: `gridX * CELL_SIZE`. -/
def gridToWorldX (gridX : ℚ) : ℚ := gridX * GRID_CELL_SIZE

/-- `gridToWorldZ` of the assembly service: `gridY * CELL_SIZE`. -/
def gridToWorldZ (gridY : ℚ) : ℚ := gridY * GRID_CELL_SIZE

/-- `cellsToMeters` of the assembly service. -/
def cellsToMeters (cells : ℚ) : ℚ := cells * GRID_CELL_SIZE

/-- The wall axis argument of `createWallWithOpenings` (`'x' | 'z'`). -/
inductive WallAxis where
  | x : WallAxis
  | z : WallAxis
deriving DecidableEq

/-- An opening record (`position`, `width`) as collected by
`findRoomOpenings`. -/
structure WallOpening where
  position : ℚ
  width : ℚ
deriving DecidableEq

/-- `GeometryWall` of `scene-config.interface.ts`.  The source id string
`wall_<n>` is modelled by the number `n`; `stop` models the source field
`end`. -/
structure GeometryWall where
  id : Nat
  start : Vec3
  stop : Vec3
  height : ℚ
  color : String
deriving DecidableEq

/-- The coordinate of a point along the wall axis (`start[0]` for `'x'`,
`start[2]` for `'z'`). -/
def axisCoord (axis : WallAxis) (v : Vec3) : ℚ :=
  match axis with
  | WallAxis.x => v.x
  | WallAxis.z => v.z

/-- Rebuild a wall endpoint from a coordinate `p` along the axis and the
other two coordinates of `base` (`[p, base[1], base[2]]` for `'x'`,
`[base[0], base[1], p]` for `'z'`). -/
def pointOn (axis : WallAxis) (p : ℚ) (base : Vec3) : Vec3 :=
  match axis with
  | WallAxis.x => ⟨p, base.y, base.z⟩
  | WallAxis.z => ⟨base.x, base.y, p⟩

/-- `opening.position - opening.width / 2` (the `openingStart` local of the
carving loop). -/
def openStart (o : WallOpening) : ℚ := o.position - o.width / 2

/-- `opening.position + opening.width / 2` (the `openingEnd` local of the
carving loop). -/
def openEnd (o : WallOpening) : ℚ := o.position + o.width / 2

/-- The carving loop of `createWallWithOpenings` (lines 453-495 of the
assembly service): walks the sorted openings advancing a cursor, emits a
solid span before each opening when the cursor is strictly left of it, and
finally emits the span from the cursor to the end of the wall when
nonempty. -/
def carveLoop (axis : WallAxis) (start stop : Vec3) (color : String) :
    ℚ → Nat → List WallOpening → List GeometryWall
  | currentPos, id, [] =>
    let wallEnd := axisCoord axis stop
    if currentPos < wallEnd then
      [⟨id, pointOn axis currentPos start, pointOn axis wallEnd stop,
        WALL_HEIGHT, color⟩]
    else []
  | currentPos, id, opening :: rest =>
    if currentPos < openStart opening then
      ⟨id, pointOn axis currentPos start, pointOn axis (openStart opening) stop,
        WALL_HEIGHT, color⟩ ::
      carveLoop axis start stop color (max currentPos (openEnd opening)) (id + 1)
        rest
    else
      carveLoop axis start stop color (max currentPos (openEnd opening)) id rest

/-- `createWallWithOpenings` of the assembly service (lines 424-495).
The source pushes into a shared array; the list returned here is the
sequence of walls it pushes.  `[...openings].sort((a, b) => a.position -
b.position)` is a stable sort by position, modelled by insertion sort. -/
def createWallWithOpenings (startId : Nat) (start stop : Vec3) (axis : WallAxis)
    (openings : List WallOpening) (color : String) : List GeometryWall :=
  if openings.length = 0 then
    [⟨startId, start, stop, WALL_HEIGHT, color⟩]
  else
    let sortedOpenings :=
      List.insertionSort (fun a b => a.position ≤ b.position) openings
    carveLoop axis start stop color (axisCoord axis start) startId sortedOpenings

/-- `GeometryPOI` of `scene-config.interface.ts`. -/
structure GeometryPOI where
  id : String
  type : String
  position : Vec3
  color : String
  label : String
  roomId : String
deriving DecidableEq

/-- The `POI_COLORS` lookup table of the assembly service; `none` models a
key miss (JS `undefined`). -/
def POI_COLORS (t : String) : Option String :=
  if t == "spawn" then some "#00ff00"
  else if t == "goal" then some "#ff0000"
  else if t == "treasure" then some "#ffd700"
  else if t == "checkpoint" then some "#00bfff"
  else none

/-- The body of the `pois.map` in `buildGridPOIs` (lines 500-527): a POI
whose room does not resolve is still emitted, at `[0, 0.1, 0]`; otherwise
the marker sits at the room's world center.  `charAt(0).toUpperCase() +
slice(1)` is modelled by `String.capitalize`. -/
def buildGridPOI (rooms : List GridRoom) (poi : GridPOI) : GeometryPOI :=
  match rooms.find? (fun r => r.id == poi.roomId) with
  | none =>
    { id := poi.id
      type := poi.type
      position := ⟨0, 1/10, 0⟩
      color := (POI_COLORS poi.type).getD ("#ffffff")
      label := poi.type.capitalize
      roomId := poi.roomId }
  | some room =>
    let centerX := gridToWorldX (room.gridX + room.width / 2)
    let centerZ := gridToWorldZ (room.gridY + room.height / 2)
    { id := poi.id
      type := poi.type
      position := ⟨centerX, 1/10, centerZ⟩
      color := (POI_COLORS poi.type).getD ("#ffffff")
      label := poi.type.capitalize
      roomId := poi.roomId }

/-- `buildGridPOIs` of the assembly service (lines 500-527). -/
def buildGridPOIs (pois : List GridPOI) (rooms : List GridRoom) :
    List GeometryPOI :=
  pois.map (buildGridPOI rooms)

/-- The `default` block of the camera configuration. -/
structure CameraDefault where
  position : Vec3
  look_at : Vec3
  fov : ℚ
deriving DecidableEq

/-- `CameraConfig` of `scene-config.interface.ts`. -/
structure CameraConfig where
  default : CameraDefault
  orbit_target : Vec3
  min_distance : ℚ
  max_distance : ℚ
deriving DecidableEq

/-- The `minX` fold of `configureGridCamera`.  The source starts the fold
at `Infinity`; for a nonempty room list this equals folding from the first
room's edge, which is how it is modelled (the empty case, where `Infinity`
would survive, is modelled as 0 and is never reached by the claims). -/
def camMinX (rooms : List GridRoom) : ℚ :=
  match rooms with
  | [] => 0
  | r :: rest =>
    rest.foldl (fun m r2 => min m (gridToWorldX r2.gridX)) (gridToWorldX r.gridX)

/-- The `maxX` fold of `configureGridCamera` (source init: `-Infinity`). -/
def camMaxX (rooms : List GridRoom) : ℚ :=
  match rooms with
  | [] => 0
  | r :: rest =>
    rest.foldl (fun m r2 => max m (gridToWorldX (r2.gridX + r2.width)))
      (gridToWorldX (r.gridX + r.width))

/-- The `minZ` fold of `configureGridCamera` (source init: `Infinity`). -/
def camMinZ (rooms : List GridRoom) : ℚ :=
  match rooms with
  | [] => 0
  | r :: rest =>
    rest.foldl (fun m r2 => min m (gridToWorldZ r2.gridY)) (gridToWorldZ r.gridY)

/-- The `maxZ` fold of `configureGridCamera` (source init: `-Infinity`). -/
def camMaxZ (rooms : List GridRoom) : ℚ :=
  match rooms with
  | [] => 0
  | r :: rest =>
    rest.foldl (fun m r2 => max m (gridToWorldZ (r2.gridY + r2.height)))
      (gridToWorldZ (r.gridY + r.height))

/-- `configureGridCamera` of the assembly service (lines 652-688).
`0.8` and `0.5` are the exact double values `4/5` and `1/2`. -/
def configureGridCamera (level : GridLevelData) : CameraConfig :=
  let minX := camMinX level.rooms
  let maxX := camMaxX level.rooms
  let minZ := camMinZ level.rooms
  let maxZ := camMaxZ level.rooms
  let centerX := (minX + maxX) / 2
  let centerZ := (minZ + maxZ) / 2
  let levelWidth := maxX - minX
  let levelDepth := maxZ - minZ
  let cameraHeight := max 30 (max levelWidth levelDepth * (4/5))
  let cameraDistance := max 40 levelDepth
  { default :=
      { position := ⟨centerX, cameraHeight, maxZ + cameraDistance * (1/2)⟩
        look_at := ⟨centerX, 0, centerZ⟩
        fov := 60 }
    orbit_target := ⟨centerX, 0, centerZ⟩
    min_distance := 10
    max_distance := cameraDistance * 2 }

/-- `Character` of `game-context.interface.ts` (fields used by the object
placer). -/
structure Character where
  id : String
  name : String
  role : String
deriving DecidableEq

/-- `Prop` of `game-context.interface.ts` (fields used by the object
placer; the name `Prop` is reserved in Lean).  `placement_tags := none`
models a missing field (the source guards it with `?.`). -/
structure GameProp where
  id : String
  name : String
  placement_tags : Option (List String)
deriving DecidableEq

/-- `GameContext` restricted to the fields read by `positionGridObjects`
(`characters` and `props`; `props` is optional in the source,
`context.props?.find`). -/
structure GameContext where
  characters : List Character
  props : Option (List GameProp)
deriving DecidableEq

/-- `GeneratedAsset` (fields used by the object placer). -/
structure GeneratedAsset where
  id : String
  name : String
  type : String
  path : String
  status : String
deriving DecidableEq

/-- `SceneObject` of `scene-config.interface.ts`. -/
structure SceneObject where
  id : String
  reference_id : String
  name : String
  model_path : String
  position : Vec3
  rotation : Vec3
  scale : Vec3
  poi_id : Option String
deriving DecidableEq

/-- `ASSET_SCALES.protagonist`. -/
def SCALE_PROTAGONIST : Vec3 := ⟨3, 3, 3⟩

/-- `ASSET_SCALES.antagonist`. -/
def SCALE_ANTAGONIST : Vec3 := ⟨5, 5, 5⟩

/-- `ASSET_SCALES.npc`. -/
def SCALE_NPC : Vec3 := ⟨5/2, 5/2, 5/2⟩

/-- `ASSET_SCALES.prop`. -/
def SCALE_PROP : Vec3 := ⟨2, 2, 2⟩

/-- `roomPropCount.get(id) || 0` over the association-list model of the JS
`Map`. -/
def countGet (counts : List (String × Nat)) (key : String) : Nat :=
  match counts.find? (fun kv => kv.1 == key) with
  | some kv => kv.2
  | none => 0

/-- `roomPropCount.set(id, v)` over the association-list model. -/
def countSet (counts : List (String × Nat)) (key : String) (v : Nat) :
    List (String × Nat) :=
  (key, v) :: counts.filter (fun kv => kv.1 != key)

/-- World center of a room, as computed inline throughout the placer. -/
def roomCenterWorld (room : GridRoom) : ℚ × ℚ :=
  (gridToWorldX (room.gridX + room.width / 2),
   gridToWorldZ (room.gridY + room.height / 2))

/-- The character branch of the placement loop (lines 573-607): protagonist
at the spawn POI's room center, antagonist at the goal POI's room center,
anyone else beside a `mid`-tagged room; when the required POI/room does not
resolve, position, scale and poi binding keep their initial values
(`[0,0,0]`, `ASSET_SCALES.prop`, `undefined`). -/
def resolveCharacter (level : GridLevelData) (spawnPOI goalPOI : Option GridPOI)
    (character : Character) : Vec3 × Vec3 × Option String :=
  if character.role == "protagonist" && spawnPOI.isSome then
    match spawnPOI.bind
        (fun sp => (mapGet level.rooms sp.roomId).map (fun room => (sp, room))) with
    | some (sp, room) =>
      let c := roomCenterWorld room
      (⟨c.1, 0, c.2⟩, SCALE_PROTAGONIST, some sp.id)
    | none => (⟨0, 0, 0⟩, SCALE_PROP, none)
  else if character.role == "antagonist" && goalPOI.isSome then
    match goalPOI.bind
        (fun gp => (mapGet level.rooms gp.roomId).map (fun room => (gp, room))) with
    | some (gp, room) =>
      let c := roomCenterWorld room
      (⟨c.1, 0, c.2⟩, SCALE_ANTAGONIST, some gp.id)
    | none => (⟨0, 0, 0⟩, SCALE_PROP, none)
  else
    match level.rooms.find? (fun r => (r.tags.getD []).contains ("mid")) with
    | some midRoom =>
      let c := roomCenterWorld midRoom
      (⟨c.1 + 3, 0, c.2⟩, SCALE_NPC, none)
    | none => (⟨0, 0, 0⟩, SCALE_PROP, none)

/-- The prop branch of the placement loop (lines 608-628).  The arc offsets
`Math.cos(index*π/3 − π/6) * 3` and `Math.sin(index*π/3 − π/6) * 3` are
irrational reals; they are abstracted as the parameters
`arcOffsetX`/`arcOffsetZ` indexed by the per-room prop index (no claim
settled here depends on their values).  A prop whose target tag resolves to
no room keeps position `[0,0,0]` and touches neither position nor the
per-room counter. -/
def resolveProp (arcOffsetX arcOffsetZ : Nat → ℚ) (level : GridLevelData)
    (counts : List (String × Nat)) (prop : GameProp) :
    List (String × Nat) × Vec3 × Vec3 :=
  let targetTag :=
    match (prop.placement_tags.getD []).head? with
    | none => "mid"
    | some t => if t == "" then "mid" else t
  match level.rooms.find? (fun r => (r.tags.getD []).contains targetTag) with
  | some targetRoom =>
    let propIndex := countGet counts targetRoom.id
    let counts2 := countSet counts targetRoom.id (propIndex + 1)
    let c := roomCenterWorld targetRoom
    (counts2, ⟨c.1 + arcOffsetX propIndex, 0, c.2 + arcOffsetZ propIndex⟩,
      SCALE_PROP)
  | none => (counts, ⟨0, 0, 0⟩, SCALE_PROP)

/-- One iteration of the `for (const asset of assets)` loop of
`positionGridObjects` (lines 563-640): non-ready assets are skipped
(`continue`); every ready asset is pushed, with position/scale/poi resolved
by the character or prop branch (or left at the defaults when the asset
matches neither). -/
def placeAsset (arcOffsetX arcOffsetZ : Nat → ℚ) (level : GridLevelData)
    (context : GameContext) (spawnPOI goalPOI : Option GridPOI)
    (counts : List (String × Nat)) (asset : GeneratedAsset) :
    List (String × Nat) × List SceneObject :=
  if asset.status != "ready" || asset.path == "" then (counts, [])
  else
    let resolved :=
      match context.characters.find? (fun c => c.id == asset.id) with
      | some character =>
        let r := resolveCharacter level spawnPOI goalPOI character
        (counts, r.1, r.2.1, r.2.2)
      | none =>
        match (context.props.getD []).find? (fun (p : GameProp) => p.id == asset.id) with
        | some prop =>
          let r := resolveProp arcOffsetX arcOffsetZ level counts prop
          (r.1, r.2.1, r.2.2, none)
        | none => (counts, ⟨0, 0, 0⟩, SCALE_PROP, none)
    (resolved.1,
      [{ id := "obj_" ++ asset.id
         reference_id := asset.id
         name := asset.name
         model_path := asset.path
         position := resolved.2.1
         rotation := ⟨0, 0, 0⟩
         scale := resolved.2.2.1
         poi_id := resolved.2.2.2 }])

/-- The placement loop threading the mutable `roomPropCount` map and
appending each pushed object. -/
def positionLoop (arcOffsetX arcOffsetZ : Nat → ℚ) (level : GridLevelData)
    (context : GameContext) (spawnPOI goalPOI : Option GridPOI) :
    List (String × Nat) → List GeneratedAsset → List SceneObject
  | _, [] => []
  | counts, asset :: rest =>
    let step := placeAsset arcOffsetX arcOffsetZ level context spawnPOI goalPOI
      counts asset
    step.2 ++ positionLoop arcOffsetX arcOffsetZ level context spawnPOI goalPOI
      step.1 rest

/-- `positionGridObjects` of the assembly service (lines 546-643). -/
def positionGridObjects (arcOffsetX arcOffsetZ : Nat → ℚ)
    (level : GridLevelData) (assets : List GeneratedAsset)
    (context : GameContext) : List SceneObject :=
  let spawnPOI := level.pois.find? (fun p => p.type == "spawn")
  let goalPOI := level.pois.find? (fun p => p.type == "goal")
  positionLoop arcOffsetX arcOffsetZ level context spawnPOI goalPOI [] assets

/-! ## Helper lemmas -/

lemma jsFloor_le_of_le {q : ℚ} {n : ℤ} (h : (n : ℚ) ≤ q) : (n : ℚ) ≤ jsFloor q := by
  unfold jsFloor
  exact_mod_cast Int.le_floor.mpr h

lemma jsFloor_lt_of_lt {q : ℚ} {n : ℤ} (h : q < (n : ℚ)) : jsFloor q < (n : ℚ) := by
  unfold jsFloor
  exact_mod_cast Int.floor_lt.mpr h

/-! ## C1: straight vertical corridor for X-overlapping rectangles -/

/-- C1: for all integer rectangles `from` and `to` whose X intervals
overlap (`max(minX1,minX2) < min(maxX1,maxX2)`), the corridor router
returns exactly one vertical segment whose X equals
`floor((overlapStart+overlapEnd)/2)` and lies within the overlap
interval, and whose Y span is `[from.maxY, to.minY]` when
`from.maxY ≤ to.minY` and `[from.minY, to.maxY]` otherwise. -/
theorem c1_route_x_overlap (cid id1 nm1 id2 nm2 : String)
    (t1 t2 : Option (List String)) (wc : ℚ)
    (gx1 gy1 w1 h1 gx2 gy2 w2 h2 : ℤ)
    (hov : max gx1 gx2 < min (gx1 + w1) (gx2 + w2)) :
    ∃ seg : CorridorSegment,
      (buildCorridorBetweenRooms cid
          ⟨id1, nm1, (gx1 : ℚ), (gy1 : ℚ), (w1 : ℚ), (h1 : ℚ), t1⟩
          ⟨id2, nm2, (gx2 : ℚ), (gy2 : ℚ), (w2 : ℚ), (h2 : ℚ), t2⟩ wc).segments
        = some [seg] ∧
      seg.startX = seg.endX ∧
      seg.startX =
        jsFloor ((((max gx1 gx2 : ℤ) : ℚ) +
          ((min (gx1 + w1) (gx2 + w2) : ℤ) : ℚ)) / 2) ∧
      ((max gx1 gx2 : ℤ) : ℚ) ≤ seg.startX ∧
      seg.startX < ((min (gx1 + w1) (gx2 + w2) : ℤ) : ℚ) ∧
      (if gy1 + h1 ≤ gy2
        then seg.startY = ((gy1 + h1 : ℤ) : ℚ) ∧ seg.endY = (gy2 : ℚ)
        else seg.startY = (gy1 : ℚ) ∧ seg.endY = ((gy2 + h2 : ℤ) : ℚ)) := by
  have hSmax : ((max gx1 gx2 : ℤ) : ℚ) = max (gx1 : ℚ) (gx2 : ℚ) := by
    push_cast
    rfl
  have hEmin : ((min (gx1 + w1) (gx2 + w2) : ℤ) : ℚ)
      = min ((gx1 : ℚ) + (w1 : ℚ)) ((gx2 : ℚ) + (w2 : ℚ)) := by
    push_cast
    rfl
  have hSE : ((max gx1 gx2 : ℤ) : ℚ) < ((min (gx1 + w1) (gx2 + w2) : ℤ) : ℚ) := by
    exact_mod_cast hov
  have hovQ : max (gx1 : ℚ) (gx2 : ℚ)
      < min ((gx1 : ℚ) + (w1 : ℚ)) ((gx2 : ℚ) + (w2 : ℚ)) := by
    rw [← hSmax, ← hEmin]
    exact hSE
  have hxlo : ((max gx1 gx2 : ℤ) : ℚ)
      ≤ jsFloor ((((max gx1 gx2 : ℤ) : ℚ) +
          ((min (gx1 + w1) (gx2 + w2) : ℤ) : ℚ)) / 2) := by
    apply jsFloor_le_of_le
    linarith
  have hxhi : jsFloor ((((max gx1 gx2 : ℤ) : ℚ) +
          ((min (gx1 + w1) (gx2 + w2) : ℤ) : ℚ)) / 2)
      < ((min (gx1 + w1) (gx2 + w2) : ℤ) : ℚ) := by
    apply jsFloor_lt_of_lt
    linarith
  by_cases hY : gy1 + h1 ≤ gy2
  · refine ⟨⟨jsFloor ((((max gx1 gx2 : ℤ) : ℚ) +
        ((min (gx1 + w1) (gx2 + w2) : ℤ) : ℚ)) / 2), ((gy1 + h1 : ℤ) : ℚ),
        jsFloor ((((max gx1 gx2 : ℤ) : ℚ) +
        ((min (gx1 + w1) (gx2 + w2) : ℤ) : ℚ)) / 2), (gy2 : ℚ)⟩,
      ?_, rfl, rfl, hxlo, hxhi, ?_⟩
    · have hYQ : (gy1 : ℚ) + (h1 : ℚ) ≤ (gy2 : ℚ) := by exact_mod_cast hY
      simp only [buildCorridorBetweenRooms, getOverlap, buildVerticalCorridor]
      rw [if_pos (by simpa using hovQ), if_pos hYQ]
      simp only [hSmax, hEmin]
      push_cast
      rfl
    · rw [if_pos hY]
      exact ⟨rfl, rfl⟩
  · refine ⟨⟨jsFloor ((((max gx1 gx2 : ℤ) : ℚ) +
        ((min (gx1 + w1) (gx2 + w2) : ℤ) : ℚ)) / 2), (gy1 : ℚ),
        jsFloor ((((max gx1 gx2 : ℤ) : ℚ) +
        ((min (gx1 + w1) (gx2 + w2) : ℤ) : ℚ)) / 2), ((gy2 + h2 : ℤ) : ℚ)⟩,
      ?_, rfl, rfl, hxlo, hxhi, ?_⟩
    · have hYQ : ¬ ((gy1 : ℚ) + (h1 : ℚ) ≤ (gy2 : ℚ)) := by exact_mod_cast hY
      simp only [buildCorridorBetweenRooms, getOverlap, buildVerticalCorridor]
      rw [if_pos (by simpa using hovQ), if_neg hYQ]
      simp only [hSmax, hEmin]
      push_cast
      rfl
    · rw [if_neg hY]
      exact ⟨rfl, rfl⟩

/-- Witness for C1 at Scenario A of the spec: rooms `(0,0,4,3)` and
`(0,6,4,3)`. -/
theorem c1_route_x_overlap_witness :
    ∃ seg : CorridorSegment,
      (buildCorridorBetweenRooms "corr"
          ⟨"r1", "n1", ((0 : ℤ) : ℚ), ((0 : ℤ) : ℚ), ((4 : ℤ) : ℚ), ((3 : ℤ) : ℚ), none⟩
          ⟨"r2", "n2", ((0 : ℤ) : ℚ), ((6 : ℤ) : ℚ), ((4 : ℤ) : ℚ), ((3 : ℤ) : ℚ), none⟩
          1).segments = some [seg] ∧
      seg.startX = seg.endX ∧
      seg.startX =
        jsFloor ((((max (0 : ℤ) 0 : ℤ) : ℚ) +
          ((min ((0 : ℤ) + 4) ((0 : ℤ) + 4) : ℤ) : ℚ)) / 2) ∧
      ((max (0 : ℤ) 0 : ℤ) : ℚ) ≤ seg.startX ∧
      seg.startX < ((min ((0 : ℤ) + 4) ((0 : ℤ) + 4) : ℤ) : ℚ) ∧
      (if (0 : ℤ) + 3 ≤ 6
        then seg.startY = (((0 : ℤ) + 3 : ℤ) : ℚ) ∧ seg.endY = ((6 : ℤ) : ℚ)
        else seg.startY = ((0 : ℤ) : ℚ) ∧ seg.endY = (((6 : ℤ) + 3 : ℤ) : ℚ)) :=
  c1_route_x_overlap "corr" "r1" "n1" "r2" "n2" none none 1 0 0 4 3 0 6 4 3
    (by decide)

lemma jsFloor_le (q : ℚ) : jsFloor q ≤ q := by
  unfold jsFloor
  exact Int.floor_le q

/-! ## C2: L-shaped corridor for rectangles overlapping on neither axis -/

/-- C2: for all integer rectangles `from` and `to` that overlap neither on
the X axis nor on the Y axis, the router returns exactly two segments: the
first horizontal at `Y = floor(from.centerY)`, starting exactly on `from`'s
boundary, the second vertical at `X = floor(to.centerX)`, ending exactly on
`to`'s boundary, and the first segment's end point equals the second
segment's start point (the corner of the L). -/
theorem c2_route_l_shaped (cid id1 nm1 id2 nm2 : String)
    (t1 t2 : Option (List String)) (wc : ℚ)
    (gx1 gy1 w1 h1 gx2 gy2 w2 h2 : ℤ)
    (hw1 : 0 ≤ w1) (hh1 : 0 ≤ h1) (hw2 : 0 ≤ w2) (hh2 : 0 ≤ h2)
    (hnx : ¬ max gx1 gx2 < min (gx1 + w1) (gx2 + w2))
    (hny : ¬ max gy1 gy2 < min (gy1 + h1) (gy2 + h2)) :
    ∃ seg1 seg2 : CorridorSegment,
      (buildCorridorBetweenRooms cid
          ⟨id1, nm1, (gx1 : ℚ), (gy1 : ℚ), (w1 : ℚ), (h1 : ℚ), t1⟩
          ⟨id2, nm2, (gx2 : ℚ), (gy2 : ℚ), (w2 : ℚ), (h2 : ℚ), t2⟩ wc).segments
        = some [seg1, seg2] ∧
      seg1.startY = seg1.endY ∧
      seg1.startY = jsFloor ((gy1 : ℚ) + (h1 : ℚ) / 2) ∧
      (seg1.startX = ((gx1 + w1 : ℤ) : ℚ) ∨ seg1.startX = (gx1 : ℚ)) ∧
      (gy1 : ℚ) ≤ seg1.startY ∧ seg1.startY ≤ ((gy1 + h1 : ℤ) : ℚ) ∧
      seg2.startX = seg2.endX ∧
      seg2.startX = jsFloor ((gx2 : ℚ) + (w2 : ℚ) / 2) ∧
      (seg2.endY = (gy2 : ℚ) ∨ seg2.endY = ((gy2 + h2 : ℤ) : ℚ)) ∧
      (gx2 : ℚ) ≤ seg2.endX ∧ seg2.endX ≤ ((gx2 + w2 : ℤ) : ℚ) ∧
      seg1.endX = seg2.startX ∧ seg1.endY = seg2.startY := by
  have hh1Q : (0 : ℚ) ≤ (h1 : ℚ) := by exact_mod_cast hh1
  have hw2Q : (0 : ℚ) ≤ (w2 : ℚ) := by exact_mod_cast hw2
  have hnxQ : ¬ (max (gx1 : ℚ) (gx2 : ℚ)
      < min ((gx1 : ℚ) + (w1 : ℚ)) ((gx2 : ℚ) + (w2 : ℚ))) := by
    intro hq
    apply hnx
    have : ((max gx1 gx2 : ℤ) : ℚ) < ((min (gx1 + w1) (gx2 + w2) : ℤ) : ℚ) := by
      push_cast
      exact hq
    exact_mod_cast this
  have hnyQ : ¬ (max (gy1 : ℚ) (gy2 : ℚ)
      < min ((gy1 : ℚ) + (h1 : ℚ)) ((gy2 : ℚ) + (h2 : ℚ))) := by
    intro hq
    apply hny
    have : ((max gy1 gy2 : ℤ) : ℚ) < ((min (gy1 + h1) (gy2 + h2) : ℤ) : ℚ) := by
      push_cast
      exact hq
    exact_mod_cast this
  refine ⟨⟨(if decide ((gx2 : ℚ) + (w2 : ℚ) / 2 > (gx1 : ℚ) + (w1 : ℚ) / 2)
        then (gx1 : ℚ) + (w1 : ℚ) else (gx1 : ℚ)),
      jsFloor ((gy1 : ℚ) + (h1 : ℚ) / 2),
      jsFloor ((gx2 : ℚ) + (w2 : ℚ) / 2),
      jsFloor ((gy1 : ℚ) + (h1 : ℚ) / 2)⟩,
    ⟨jsFloor ((gx2 : ℚ) + (w2 : ℚ) / 2),
      jsFloor ((gy1 : ℚ) + (h1 : ℚ) / 2),
      jsFloor ((gx2 : ℚ) + (w2 : ℚ) / 2),
      (if decide ((gy2 : ℚ) + (h2 : ℚ) / 2 > (gy1 : ℚ) + (h1 : ℚ) / 2)
        then (gy2 : ℚ) else (gy2 : ℚ) + (h2 : ℚ))⟩,
    ?_, rfl, rfl, ?_, ?_, ?_, rfl, rfl, ?_, ?_, ?_, rfl, rfl⟩
  · simp only [buildCorridorBetweenRooms, getOverlap, buildLShapedCorridor]
    rw [if_neg (by simpa using hnxQ), if_neg (by simpa using hnyQ)]
  · by_cases hgr : (gx2 : ℚ) + (w2 : ℚ) / 2 > (gx1 : ℚ) + (w1 : ℚ) / 2
    · left
      push_cast
      simp [hgr]
    · right
      simp [hgr]
  · apply jsFloor_le_of_le
    linarith
  · have h1le : jsFloor ((gy1 : ℚ) + (h1 : ℚ) / 2) ≤ (gy1 : ℚ) + (h1 : ℚ) / 2 :=
      jsFloor_le _
    push_cast
    linarith
  · by_cases hgd : (gy2 : ℚ) + (h2 : ℚ) / 2 > (gy1 : ℚ) + (h1 : ℚ) / 2
    · left
      simp [hgd]
    · right
      push_cast
      simp [hgd]
  · apply jsFloor_le_of_le
    linarith
  · have h2le : jsFloor ((gx2 : ℚ) + (w2 : ℚ) / 2) ≤ (gx2 : ℚ) + (w2 : ℚ) / 2 :=
      jsFloor_le _
    push_cast
    linarith

/-- Witness for C2 at Scenario B of the spec: rooms `(0,0,4,3)` and
`(8,5,4,3)` (no overlap on either axis). -/
theorem c2_route_l_shaped_witness :
    ∃ seg1 seg2 : CorridorSegment,
      (buildCorridorBetweenRooms "corr"
          ⟨"r1", "n1", ((0 : ℤ) : ℚ), ((0 : ℤ) : ℚ), ((4 : ℤ) : ℚ), ((3 : ℤ) : ℚ), none⟩
          ⟨"r3", "n3", ((8 : ℤ) : ℚ), ((5 : ℤ) : ℚ), ((4 : ℤ) : ℚ), ((3 : ℤ) : ℚ), none⟩
          1).segments = some [seg1, seg2] ∧
      seg1.startY = seg1.endY ∧
      seg1.startY = jsFloor (((0 : ℤ) : ℚ) + ((3 : ℤ) : ℚ) / 2) ∧
      (seg1.startX = (((0 : ℤ) + 4 : ℤ) : ℚ) ∨ seg1.startX = ((0 : ℤ) : ℚ)) ∧
      ((0 : ℤ) : ℚ) ≤ seg1.startY ∧ seg1.startY ≤ (((0 : ℤ) + 3 : ℤ) : ℚ) ∧
      seg2.startX = seg2.endX ∧
      seg2.startX = jsFloor (((8 : ℤ) : ℚ) + ((4 : ℤ) : ℚ) / 2) ∧
      (seg2.endY = ((5 : ℤ) : ℚ) ∨ seg2.endY = (((5 : ℤ) + 3 : ℤ) : ℚ)) ∧
      ((8 : ℤ) : ℚ) ≤ seg2.endX ∧ seg2.endX ≤ (((8 : ℤ) + 4 : ℤ) : ℚ) ∧
      seg1.endX = seg2.startX ∧ seg1.endY = seg2.startY :=
  c2_route_l_shaped "corr" "r1" "n1" "r3" "n3" none none 1 0 0 4 3 8 5 4 3
    (by decide) (by decide) (by decide) (by decide) (by decide) (by decide)

/-! ## C10: POI markers with dangling room references -/

/-- C10: a POI whose `roomId` resolves to no room is not dropped and raises
no error: the assembler still emits a marker for it, at world position
`[0, 0.1, 0]`, with the POI type's color (white for unknown types) and the
capitalized type label. -/
theorem c10_dangling_poi_marker (pois : List GridPOI) (rooms : List GridRoom)
    (poi : GridPOI) (hmem : poi ∈ pois)
    (hnone : rooms.find? (fun r => r.id == poi.roomId) = none) :
    (buildGridPOIs pois rooms).length = pois.length ∧
    (⟨poi.id, poi.type, ⟨0, 1/10, 0⟩, (POI_COLORS poi.type).getD ("#ffffff"),
        poi.type.capitalize, poi.roomId⟩ : GeometryPOI)
      ∈ buildGridPOIs pois rooms := by
  refine ⟨by simp [buildGridPOIs], ?_⟩
  have h : buildGridPOI rooms poi
      = ⟨poi.id, poi.type, ⟨0, 1/10, 0⟩, (POI_COLORS poi.type).getD ("#ffffff"),
          poi.type.capitalize, poi.roomId⟩ := by
    simp only [buildGridPOI, hnone]
  rw [← h]
  exact List.mem_map_of_mem _ hmem

/-- Witness for C10: a single treasure POI pointing at the absent room
`"nowhere"` in a level with one room `"r1"`. -/
theorem c10_dangling_poi_marker_witness :
    (buildGridPOIs [⟨"p1", "treasure", "nowhere", 0, 0⟩]
        [⟨"r1", "a", 0, 0, 4, 3, none⟩]).length
      = [(⟨"p1", "treasure", "nowhere", 0, 0⟩ : GridPOI)].length ∧
    (⟨"p1", "treasure", ⟨0, 1/10, 0⟩,
        (POI_COLORS "treasure").getD ("#ffffff"),
        String.capitalize "treasure", "nowhere"⟩ : GeometryPOI)
      ∈ buildGridPOIs [⟨"p1", "treasure", "nowhere", 0, 0⟩]
          [⟨"r1", "a", 0, 0, 4, 3, none⟩] :=
  c10_dangling_poi_marker [⟨"p1", "treasure", "nowhere", 0, 0⟩]
    [⟨"r1", "a", 0, 0, 4, 3, none⟩] ⟨"p1", "treasure", "nowhere", 0, 0⟩
    (by simp) (by rfl)

/-! ## C5: spawn and goal POIs after repair -/

lemma validateAndFixLayout_ok {level fixed : GridLevelData}
    (h : validateAndFixLayout (some level) = Except.ok fixed) :
    ¬ level.rooms.length < 2 ∧ fixed = fixLevel level := by
  simp only [validateAndFixLayout] at h
  by_cases hlen : level.rooms.length < 2
  · rw [if_pos hlen] at h
    exact absurd h (by simp)
  · rw [if_neg hlen] at h
    simp only [Except.ok.injEq] at h
    exact ⟨hlen, h.symm⟩

lemma fixLevel_pois_eq (level : GridLevelData) :
    (fixLevel level).pois =
      (let rooms := level.rooms.map fixRoom
       let pois0 :=
         if level.pois.length < 2 then generateDefaultPOIs rooms else level.pois
       if pois0.any (fun p => p.type == "spawn")
           && pois0.any (fun p => p.type == "goal")
       then pois0 else generateDefaultPOIs rooms) := rfl

lemma fixLevel_has_spawn_goal (level : GridLevelData) :
    (∃ p ∈ (fixLevel level).pois, p.type = "spawn") ∧
    (∃ p ∈ (fixLevel level).pois, p.type = "goal") := by
  rw [fixLevel_pois_eq]
  set rooms := level.rooms.map fixRoom with hrooms
  set pois0 :=
    if level.pois.length < 2 then generateDefaultPOIs rooms else level.pois
    with hpois0
  by_cases hsg : (pois0.any (fun p => p.type == "spawn")
      && pois0.any (fun p => p.type == "goal")) = true
  · simp only [hsg, if_true]
    rw [Bool.and_eq_true] at hsg
    obtain ⟨hs, hg⟩ := hsg
    rw [List.any_eq_true] at hs hg
    obtain ⟨ps, hps, hpseq⟩ := hs
    obtain ⟨pg, hpg, hpgeq⟩ := hg
    exact ⟨⟨ps, hps, by simpa using hpseq⟩, ⟨pg, hpg, by simpa using hpgeq⟩⟩
  · rw [Bool.not_eq_true] at hsg
    simp only [hsg, Bool.false_eq_true, if_false]
    constructor
    · exact ⟨⟨"poi_spawn", "spawn",
        (((rooms.find? (fun r => (r.tags.getD []).contains ("entry"))).getD
          (rooms.headD dummyRoom)).id), 0, 0⟩, by simp [generateDefaultPOIs], rfl⟩
    · exact ⟨⟨"poi_goal", "goal",
        (((rooms.find? (fun r => (r.tags.getD []).contains ("goal"))).getD
          (rooms.getLastD dummyRoom)).id), 0, 0⟩, by simp [generateDefaultPOIs], rfl⟩

/-- Input for the C5 counterexample: 2 rooms, 3 POIs among which the type
`spawn` is duplicated (and a `goal` present). -/
def c5Level : GridLevelData :=
  ⟨"L", "t", "th", none,
   [⟨"r1", "a", 0, 0, 4, 3, some (["entry"])⟩,
    ⟨"r2", "b", 0, 6, 4, 3, some (["goal"])⟩],
   [],
   [⟨"p1", "spawn", "r1", 0, 0⟩, ⟨"p2", "spawn", "r2", 0, 0⟩,
    ⟨"p3", "goal", "r2", 0, 0⟩],
   ["r1", "r2"]⟩

/-- C5 counterexample: on a raw input that already carries 3 POIs with a
duplicated `spawn` type (and a goal), repair keeps the POI list unchanged,
so the repaired level contains two POIs of type `spawn`, not exactly one. -/
theorem c5_counterexample :
    validateAndFixLayout (some c5Level) = Except.ok (fixLevel c5Level) ∧
    ((fixLevel c5Level).pois.filter (fun p => p.type == "spawn")).length = 2 := by
  constructor
  · rfl
  · rfl

/-- C5 (amended): for every raw input accepted by repair, the repaired
level's POI list contains *at least* one POI of type `spawn` and at least
one of type `goal` (exactly one of each only when the defaults are
regenerated; a raw list of 2 or more POIs containing both types is kept
verbatim, duplicates included). -/
theorem c5_spawn_goal_exist (level fixed : GridLevelData)
    (h : validateAndFixLayout (some level) = Except.ok fixed) :
    (∃ p ∈ fixed.pois, p.type = "spawn") ∧
    (∃ p ∈ fixed.pois, p.type = "goal") := by
  obtain ⟨-, hfix⟩ := validateAndFixLayout_ok h
  rw [hfix]
  exact fixLevel_has_spawn_goal level

/-- Witness for C5 at the concrete duplicated-spawn level. -/
theorem c5_spawn_goal_exist_witness :
    (∃ p ∈ (fixLevel c5Level).pois, p.type = "spawn") ∧
    (∃ p ∈ (fixLevel c5Level).pois, p.type = "goal") :=
  c5_spawn_goal_exist c5Level (fixLevel c5Level) (by rfl)

/-! ## C6: room coordinate and size coercion -/

/-- Rounding as the claim's words describe it: nearest integer with halves
rounded *away from zero*.  Stated here only to be compared against the
source's `Math.round` model `jsRound`. -/
def roundHalfAwayFromZero (q : ℚ) : ℚ :=
  if q < 0 then -(((⌊-q + 1/2⌋ : ℤ) : ℚ)) else ((⌊q + 1/2⌋ : ℤ) : ℚ)

/-- Input for the C6 counterexample: a room at `gridX = -2.5`. -/
def c6Level : GridLevelData :=
  ⟨"L", "t", "th", none,
   [⟨"r1", "a", -(5/2 : ℚ), 0, 4, 3, some (["entry"])⟩,
    ⟨"r2", "b", 0, 6, 4, 3, some (["goal"])⟩],
   [],
   [⟨"p1", "spawn", "r1", 0, 0⟩, ⟨"p2", "goal", "r2", 0, 0⟩],
   ["r1", "r2"]⟩

/-- C6 counterexample: a room with `gridX = -2.5` is coerced to `-2` by the
code (`Math.round` rounds halves toward positive infinity), whereas
round-half-away-from-zero, as the claim states it, yields `-3`. -/
theorem c6_counterexample :
    validateAndFixLayout (some c6Level) = Except.ok (fixLevel c6Level) ∧
    (fixLevel c6Level).rooms.map GridRoom.gridX = [-2, 0] ∧
    roundHalfAwayFromZero (-(5/2 : ℚ)) = -3 := by
  have h1 : jsRound (-(5/2 : ℚ)) = -2 := by
    unfold jsRound
    have he : (-(5/2 : ℚ) + 1/2) = ((-2 : ℤ) : ℚ) := by norm_num
    rw [he, Int.floor_intCast]
    norm_num
  have h2 : jsRound (0 : ℚ) = 0 := by
    unfold jsRound
    have he : ((0 : ℚ) + 1/2) = (1/2 : ℚ) := by norm_num
    have hf : ⌊(1/2 : ℚ)⌋ = 0 := by
      rw [Int.floor_eq_iff]
      constructor <;> norm_num
    rw [he, hf]
    norm_num
  have h3 : roundHalfAwayFromZero (-(5/2 : ℚ)) = -3 := by
    unfold roundHalfAwayFromZero
    rw [if_pos (by norm_num)]
    have he : (-(-(5/2 : ℚ)) + 1/2) = ((3 : ℤ) : ℚ) := by norm_num
    rw [he, Int.floor_intCast]
    norm_num
  refine ⟨rfl, ?_, h3⟩
  show List.map GridRoom.gridX (c6Level.rooms.map fixRoom) = [-2, 0]
  simp [c6Level, fixRoom, h1, h2]

lemma jsRound_bounds (q : ℚ) :
    ∃ n : ℤ, jsRound q = (n : ℚ) ∧ q - 1/2 < (n : ℚ) ∧ (n : ℚ) ≤ q + 1/2 := by
  refine ⟨⌊q + 1/2⌋, rfl, ?_, Int.floor_le (q + 1/2)⟩
  have h := Int.lt_floor_add_one (q + 1/2)
  linarith

/-- C6 (amended): for every room in the raw input, repair coerces `gridX`
and `gridY` to the nearest integer with halves rounded *toward positive
infinity* (JS `Math.round`; so a negative coordinate with fractional part
exactly .5 rounds toward zero, not away from it), coerces `width` and
`height` to `max(2, round(value))` with the same rounding, and defaults a
missing `tags` field to `["mid"]`.  The rounded value `n` is characterized
as the unique integer with `value - 1/2 < n ≤ value + 1/2`. -/
theorem c6_room_coercion (level fixed : GridLevelData)
    (h : validateAndFixLayout (some level) = Except.ok fixed) :
    fixed.rooms = level.rooms.map fixRoom ∧
    ∀ r ∈ level.rooms,
      (∃ n : ℤ, (fixRoom r).gridX = (n : ℚ) ∧
        r.gridX - 1/2 < (n : ℚ) ∧ (n : ℚ) ≤ r.gridX + 1/2) ∧
      (∃ n : ℤ, (fixRoom r).gridY = (n : ℚ) ∧
        r.gridY - 1/2 < (n : ℚ) ∧ (n : ℚ) ≤ r.gridY + 1/2) ∧
      (∃ n : ℤ, (fixRoom r).width = max 2 (n : ℚ) ∧
        r.width - 1/2 < (n : ℚ) ∧ (n : ℚ) ≤ r.width + 1/2) ∧
      (∃ n : ℤ, (fixRoom r).height = max 2 (n : ℚ) ∧
        r.height - 1/2 < (n : ℚ) ∧ (n : ℚ) ≤ r.height + 1/2) ∧
      (fixRoom r).tags = some (r.tags.getD (["mid"])) := by
  obtain ⟨-, hfix⟩ := validateAndFixLayout_ok h
  constructor
  · rw [hfix]
    rfl
  · intro r _
    refine ⟨jsRound_bounds r.gridX, jsRound_bounds r.gridY, ?_, ?_, rfl⟩
    · obtain ⟨n, hn, hlo, hhi⟩ := jsRound_bounds r.width
      exact ⟨n, by rw [show (fixRoom r).width = max 2 (jsRound r.width) from rfl, hn],
        hlo, hhi⟩
    · obtain ⟨n, hn, hlo, hhi⟩ := jsRound_bounds r.height
      exact ⟨n, by rw [show (fixRoom r).height = max 2 (jsRound r.height) from rfl, hn],
        hlo, hhi⟩

/-- Witness for C6 at the concrete level with a room at `gridX = -2.5`. -/
theorem c6_room_coercion_witness :
    (fixLevel c6Level).rooms = c6Level.rooms.map fixRoom ∧
    ∀ r ∈ c6Level.rooms,
      (∃ n : ℤ, (fixRoom r).gridX = (n : ℚ) ∧
        r.gridX - 1/2 < (n : ℚ) ∧ (n : ℚ) ≤ r.gridX + 1/2) ∧
      (∃ n : ℤ, (fixRoom r).gridY = (n : ℚ) ∧
        r.gridY - 1/2 < (n : ℚ) ∧ (n : ℚ) ≤ r.gridY + 1/2) ∧
      (∃ n : ℤ, (fixRoom r).width = max 2 (n : ℚ) ∧
        r.width - 1/2 < (n : ℚ) ∧ (n : ℚ) ≤ r.width + 1/2) ∧
      (∃ n : ℤ, (fixRoom r).height = max 2 (n : ℚ) ∧
        r.height - 1/2 < (n : ℚ) ∧ (n : ℚ) ≤ r.height + 1/2) ∧
      (fixRoom r).tags = some (r.tags.getD (["mid"])) :=
  c6_room_coercion c6Level (fixLevel c6Level) (by rfl)

/-! ## C4: idempotence of repair -/

lemma floor_half : ⌊(1/2 : ℚ)⌋ = 0 := by
  rw [Int.floor_eq_iff]
  constructor <;> norm_num

lemma jsRound_intCast (n : ℤ) : jsRound ((n : ℤ) : ℚ) = ((n : ℤ) : ℚ) := by
  unfold jsRound
  rw [Int.floor_int_add n (1/2 : ℚ), floor_half]
  norm_num

lemma jsRound_exists_int (q : ℚ) : ∃ n : ℤ, jsRound q = ((n : ℤ) : ℚ) :=
  ⟨⌊q + 1/2⌋, rfl⟩

lemma jsRound_idem (q : ℚ) : jsRound (jsRound q) = jsRound q := by
  obtain ⟨n, hn⟩ := jsRound_exists_int q
  rw [hn, jsRound_intCast]

lemma max2_jsRound_int (q : ℚ) :
    max 2 (jsRound q) = ((max 2 ⌊q + 1/2⌋ : ℤ) : ℚ) := by
  unfold jsRound
  push_cast
  rfl

lemma jsRound_max2_idem (q : ℚ) :
    max 2 (jsRound (max 2 (jsRound q))) = max 2 (jsRound q) := by
  rw [max2_jsRound_int q, jsRound_intCast]
  apply max_eq_right
  push_cast
  exact le_max_left _ _

lemma fixRoom_idem (r : GridRoom) : fixRoom (fixRoom r) = fixRoom r := by
  show GridRoom.mk r.id r.name (jsRound (jsRound r.gridX))
      (jsRound (jsRound r.gridY))
      (max 2 (jsRound (max 2 (jsRound r.width))))
      (max 2 (jsRound (max 2 (jsRound r.height))))
      (some ((some (r.tags.getD (["mid"]))).getD (["mid"])))
    = GridRoom.mk r.id r.name (jsRound r.gridX) (jsRound r.gridY)
      (max 2 (jsRound r.width)) (max 2 (jsRound r.height))
      (some (r.tags.getD (["mid"])))
  rw [jsRound_idem, jsRound_idem, jsRound_max2_idem, jsRound_max2_idem,
    Option.getD_some]

lemma map_fixRoom_idem (l : List GridRoom) :
    (l.map fixRoom).map fixRoom = l.map fixRoom := by
  rw [List.map_map]
  exact List.map_congr_left (fun a _ => fixRoom_idem a)

lemma orOne_ne_zero (w : Option ℚ) : orOne w ≠ 0 := by
  match w with
  | none => exact one_ne_zero
  | some v =>
    by_cases hv : v = 0
    · show (if v = 0 then 1 else v) ≠ 0
      rw [if_pos hv]
      exact one_ne_zero
    · show (if v = 0 then 1 else v) ≠ 0
      rw [if_neg hv]
      exact hv

lemma orOne_idem (w : Option ℚ) : orOne (some (orOne w)) = orOne w := by
  show (if orOne w = 0 then 1 else orOne w) = orOne w
  rw [if_neg (orOne_ne_zero w)]

lemma mapGet_self {rooms : List GridRoom} {key : String} {r : GridRoom}
    (h : mapGet rooms key = some r) : mapGet rooms r.id = some r := by
  unfold mapGet at h ⊢
  have hid : r.id = key := by
    have hp := List.find?_some h
    simpa using hp
  rw [hid]
  exact h

lemma filterMap_fixed {α : Type} (f : α → Option α) :
    ∀ (l : List α), (∀ a ∈ l, f a = some a) → l.filterMap f = l := by
  intro l
  induction l with
  | nil => intro _; rfl
  | cons a t ih =>
    intro h
    rw [List.filterMap_cons, h a (by simp)]
    rw [ih (fun b hb => h b (by simp [hb]))]

lemma buildCorridor_fields (cid : String) (fr tr : GridRoom) (w : ℚ) :
    (buildCorridorBetweenRooms cid fr tr w).fromRoom = fr.id ∧
    (buildCorridorBetweenRooms cid fr tr w).toRoom = tr.id ∧
    (buildCorridorBetweenRooms cid fr tr w).id = cid ∧
    (buildCorridorBetweenRooms cid fr tr w).widthCells = some w :=
  ⟨rfl, rfl, rfl, rfl⟩

lemma corrStep_stable {rooms : List GridRoom} {c c2 : GridCorridor}
    (h : corrStep rooms c = some c2) : corrStep rooms c2 = some c2 := by
  unfold corrStep at h
  cases hf : mapGet rooms c.fromRoom with
  | none => rw [hf] at h; exact absurd h (by simp)
  | some fr =>
    cases ht : mapGet rooms c.toRoom with
    | none => rw [hf, ht] at h; exact absurd h (by simp)
    | some tr =>
      rw [hf, ht] at h
      simp only [Option.some.injEq] at h
      subst h
      obtain ⟨h1, h2, h3, h4⟩ :=
        buildCorridor_fields c.id fr tr (orOne c.widthCells)
      unfold corrStep
      simp only [h1, h2, mapGet_self hf, mapGet_self ht]
      simp only [h3, h4, orOne_idem]

lemma GridLevelData.eq_of_fields {a b : GridLevelData}
    (h1 : a.name = b.name) (h2 : a.type = b.type) (h3 : a.theme = b.theme)
    (h4 : a.grid = b.grid) (h5 : a.rooms = b.rooms)
    (h6 : a.corridors = b.corridors) (h7 : a.pois = b.pois)
    (h8 : a.criticalPath = b.criticalPath) : a = b := by
  cases a
  cases b
  simp_all

lemma generateDefaultPOIs_length (rooms : List GridRoom) :
    (generateDefaultPOIs rooms).length = 2 := rfl

lemma fixLevel_pois_length (level : GridLevelData) :
    2 ≤ (fixLevel level).pois.length := by
  rw [fixLevel_pois_eq]
  by_cases h2 : level.pois.length < 2
  · simp only [if_pos h2]
    by_cases hsg : ((generateDefaultPOIs (level.rooms.map fixRoom)).any
          (fun p => p.type == "spawn")
        && (generateDefaultPOIs (level.rooms.map fixRoom)).any
          (fun p => p.type == "goal")) = true
    · rw [if_pos hsg, generateDefaultPOIs_length]
    · rw [if_neg hsg, generateDefaultPOIs_length]
  · simp only [if_neg h2]
    by_cases hsg : (level.pois.any (fun p => p.type == "spawn")
        && level.pois.any (fun p => p.type == "goal")) = true
    · rw [if_pos hsg]
      exact Nat.le_of_not_lt h2
    · rw [if_neg hsg, generateDefaultPOIs_length]

lemma fixLevel_any_spawn_goal (level : GridLevelData) :
    ((fixLevel level).pois.any (fun p => p.type == "spawn")) = true ∧
    ((fixLevel level).pois.any (fun p => p.type == "goal")) = true := by
  obtain ⟨⟨ps, hps, hs⟩, ⟨pg, hpg, hg⟩⟩ := fixLevel_has_spawn_goal level
  constructor
  · exact List.any_eq_true.mpr ⟨ps, hps, by simp [hs]⟩
  · exact List.any_eq_true.mpr ⟨pg, hpg, by simp [hg]⟩

lemma fixLevel_idem (level : GridLevelData) :
    fixLevel (fixLevel level) = fixLevel level := by
  have hrooms : (fixLevel level).rooms.map fixRoom = (fixLevel level).rooms := by
    show ((level.rooms.map fixRoom).map fixRoom) = (level.rooms.map fixRoom)
    exact map_fixRoom_idem level.rooms
  refine GridLevelData.eq_of_fields rfl rfl rfl ?_ ?_ ?_ ?_ ?_
  · -- grid
    rfl
  · -- rooms
    exact hrooms
  · -- corridors
    show ((fixLevel level).corridors.filterMap
        (corrStep ((fixLevel level).rooms.map fixRoom)))
      = (fixLevel level).corridors
    rw [hrooms]
    apply filterMap_fixed
    intro c hc
    have hc2 : c ∈ level.corridors.filterMap
        (corrStep (level.rooms.map fixRoom)) := hc
    rw [List.mem_filterMap] at hc2
    obtain ⟨a, _, ha⟩ := hc2
    exact corrStep_stable ha
  · -- pois
    rw [fixLevel_pois_eq (fixLevel level)]
    have hlen : ¬ (fixLevel level).pois.length < 2 :=
      Nat.not_lt.mpr (fixLevel_pois_length level)
    simp only [if_neg hlen]
    obtain ⟨hs, hg⟩ := fixLevel_any_spawn_goal level
    rw [hs, hg]
    rfl
  · -- criticalPath
    show (if (fixLevel level).criticalPath.length < 2
        then ((fixLevel level).rooms.map fixRoom).map (fun r => r.id)
        else (fixLevel level).criticalPath) = (fixLevel level).criticalPath
    rw [hrooms]
    by_cases h : (fixLevel level).criticalPath.length < 2
    · rw [if_pos h]
      by_cases h0 : level.criticalPath.length < 2
      · show (level.rooms.map fixRoom).map (fun r => r.id)
          = (fixLevel level).criticalPath
        have : (fixLevel level).criticalPath
            = (level.rooms.map fixRoom).map (fun r => r.id) := by
          show (if level.criticalPath.length < 2
              then (level.rooms.map fixRoom).map (fun r => r.id)
              else level.criticalPath) = _
          rw [if_pos h0]
        rw [this]
      · exfalso
        apply h0
        have hkeep : (fixLevel level).criticalPath = level.criticalPath := by
          show (if level.criticalPath.length < 2
              then (level.rooms.map fixRoom).map (fun r => r.id)
              else level.criticalPath) = _
          rw [if_neg h0]
        rw [hkeep] at h
        exact h
    · rw [if_neg h]

/-- C4: repair is idempotent — on any raw `GridLevelData` accepted by
repair (at least 2 rooms), applying repair to the repaired result succeeds
and returns it unchanged, covering room coercion, corridor rebuilding, POI
regeneration, critical-path defaulting and grid-config synthesis. -/
theorem c4_repair_idempotent (level fixed : GridLevelData)
    (h : validateAndFixLayout (some level) = Except.ok fixed) :
    validateAndFixLayout (some fixed) = Except.ok fixed := by
  obtain ⟨hlen, hfix⟩ := validateAndFixLayout_ok h
  subst hfix
  have hlen2 : ¬ (fixLevel level).rooms.length < 2 := by
    show ¬ (level.rooms.map fixRoom).length < 2
    simpa using hlen
  simp only [validateAndFixLayout]
  rw [if_neg hlen2, fixLevel_idem]

/-- Witness for C4 at a concrete raw level: 2 rooms with fractional
coordinates, one corridor, no POIs, no critical path, no grid config. -/
def c4Level : GridLevelData :=
  ⟨"L", "t", "th", none,
   [⟨"r1", "a", 1/3, 0, 7/2, 3, none⟩,
    ⟨"r2", "b", 0, 6, 4, 3, some (["goal"])⟩],
   [⟨"c1", "r1", "r2", none, some 0, none, none, none, none⟩],
   [], []⟩

theorem c4_repair_idempotent_witness :
    validateAndFixLayout (some (fixLevel c4Level)) =
      Except.ok (fixLevel c4Level) :=
  c4_repair_idempotent c4Level (fixLevel c4Level) (by rfl)

/-! ## C3 and C9: wall carving -/

/-- A point `q` is covered by the emitted solid spans or by one of the
opening intervals `[center - width/2, center + width/2]`. -/
def coveredBy (axis : WallAxis) (walls : List GeometryWall)
    (openings : List WallOpening) (q : ℚ) : Prop :=
  (∃ w ∈ walls, axisCoord axis w.start ≤ q ∧ q ≤ axisCoord axis w.stop) ∨
  (∃ o ∈ openings, openStart o ≤ q ∧ q ≤ openEnd o)

lemma axisCoord_pointOn (axis : WallAxis) (p : ℚ) (base : Vec3) :
    axisCoord axis (pointOn axis p base) = p := by
  cases axis <;> rfl

lemma openStart_le_openEnd {o : WallOpening} (h : 0 ≤ o.width) :
    openStart o ≤ openEnd o := by
  unfold openStart openEnd
  linarith

lemma carve_len (axis : WallAxis) (start stop : Vec3) (color : String) :
    ∀ (l : List WallOpening) (cursor : ℚ) (id : Nat),
      (carveLoop axis start stop color cursor id l).length ≤ l.length + 1 := by
  intro l
  induction l with
  | nil =>
    intro cursor id
    simp only [carveLoop]
    by_cases h : cursor < axisCoord axis stop
    · rw [if_pos h]
      simp
    · rw [if_neg h]
      simp
  | cons o rest ih =>
    intro cursor id
    simp only [carveLoop]
    by_cases h : cursor < openStart o
    · rw [if_pos h]
      simpa using Nat.succ_le_succ (ih (max cursor (openEnd o)) (id + 1))
    · rw [if_neg h]
      exact le_trans (ih (max cursor (openEnd o)) id) (by simp)

lemma carve_pos (axis : WallAxis) (start stop : Vec3) (color : String) :
    ∀ (l : List WallOpening) (cursor : ℚ) (id : Nat),
      ∀ w ∈ carveLoop axis start stop color cursor id l,
        axisCoord axis w.start < axisCoord axis w.stop := by
  intro l
  induction l with
  | nil =>
    intro cursor id w hw
    simp only [carveLoop] at hw
    by_cases h : cursor < axisCoord axis stop
    · rw [if_pos h] at hw
      simp only [List.mem_singleton] at hw
      subst hw
      simpa [axisCoord_pointOn] using h
    · rw [if_neg h] at hw
      simp at hw
  | cons o rest ih =>
    intro cursor id w hw
    simp only [carveLoop] at hw
    by_cases h : cursor < openStart o
    · rw [if_pos h] at hw
      rcases List.mem_cons.mp hw with hw1 | hw2
      · subst hw1
        simpa [axisCoord_pointOn] using h
      · exact ih (max cursor (openEnd o)) (id + 1) w hw2
    · rw [if_neg h] at hw
      exact ih (max cursor (openEnd o)) id w hw

lemma carve_start_ge (axis : WallAxis) (start stop : Vec3) (color : String) :
    ∀ (l : List WallOpening) (cursor : ℚ) (id : Nat),
      ∀ w ∈ carveLoop axis start stop color cursor id l,
        cursor ≤ axisCoord axis w.start := by
  intro l
  induction l with
  | nil =>
    intro cursor id w hw
    simp only [carveLoop] at hw
    by_cases h : cursor < axisCoord axis stop
    · rw [if_pos h] at hw
      simp only [List.mem_singleton] at hw
      subst hw
      simp [axisCoord_pointOn]
    · rw [if_neg h] at hw
      simp at hw
  | cons o rest ih =>
    intro cursor id w hw
    simp only [carveLoop] at hw
    by_cases h : cursor < openStart o
    · rw [if_pos h] at hw
      rcases List.mem_cons.mp hw with hw1 | hw2
      · subst hw1
        simp [axisCoord_pointOn]
      · exact le_trans (le_max_left _ _)
          (ih (max cursor (openEnd o)) (id + 1) w hw2)
    · rw [if_neg h] at hw
      exact le_trans (le_max_left _ _) (ih (max cursor (openEnd o)) id w hw)

lemma carve_pairwise (axis : WallAxis) (start stop : Vec3) (color : String) :
    ∀ (l : List WallOpening) (cursor : ℚ) (id : Nat),
      (∀ o ∈ l, 0 ≤ o.width) →
      List.Pairwise (fun w1 w2 =>
        axisCoord axis w1.stop ≤ axisCoord axis w2.start)
        (carveLoop axis start stop color cursor id l) := by
  intro l
  induction l with
  | nil =>
    intro cursor id _
    simp only [carveLoop]
    by_cases h : cursor < axisCoord axis stop
    · rw [if_pos h]
      simp
    · rw [if_neg h]
      simp
  | cons o rest ih =>
    intro cursor id hnn
    simp only [carveLoop]
    by_cases h : cursor < openStart o
    · rw [if_pos h]
      refine List.Pairwise.cons ?_
        (ih (max cursor (openEnd o)) (id + 1)
          (fun b hb => hnn b (List.mem_cons_of_mem o hb)))
      intro w hw
      have h1 : max cursor (openEnd o) ≤ axisCoord axis w.start :=
        carve_start_ge axis start stop color rest (max cursor (openEnd o))
          (id + 1) w hw
      have h2 : openStart o ≤ openEnd o :=
        openStart_le_openEnd (hnn o (List.mem_cons_self o rest))
      have h0 : axisCoord axis (pointOn axis (openStart o) stop) = openStart o :=
        axisCoord_pointOn axis (openStart o) stop
      show axisCoord axis (pointOn axis (openStart o) stop)
        ≤ axisCoord axis w.start
      rw [h0]
      have h3 : openEnd o ≤ max cursor (openEnd o) := le_max_right _ _
      linarith
    · rw [if_neg h]
      exact ih (max cursor (openEnd o)) id
        (fun b hb => hnn b (List.mem_cons_of_mem o hb))

lemma carve_stop_le (axis : WallAxis) (start stop : Vec3) (color : String) :
    ∀ (l : List WallOpening) (cursor : ℚ) (id : Nat),
      (∀ o ∈ l, 0 ≤ o.width) →
      (∀ o ∈ l, openEnd o ≤ axisCoord axis stop) →
      ∀ w ∈ carveLoop axis start stop color cursor id l,
        axisCoord axis w.stop ≤ axisCoord axis stop := by
  intro l
  induction l with
  | nil =>
    intro cursor id _ _ w hw
    simp only [carveLoop] at hw
    by_cases h : cursor < axisCoord axis stop
    · rw [if_pos h] at hw
      simp only [List.mem_singleton] at hw
      subst hw
      simp [axisCoord_pointOn]
    · rw [if_neg h] at hw
      simp at hw
  | cons o rest ih =>
    intro cursor id hnn hend w hw
    simp only [carveLoop] at hw
    have hoo : openStart o ≤ openEnd o :=
      openStart_le_openEnd (hnn o (List.mem_cons_self o rest))
    have heo : openEnd o ≤ axisCoord axis stop := hend o (List.mem_cons_self o rest)
    by_cases h : cursor < openStart o
    · rw [if_pos h] at hw
      rcases List.mem_cons.mp hw with hw1 | hw2
      · subst hw1
        simp only [axisCoord_pointOn]
        linarith
      · exact ih (max cursor (openEnd o)) (id + 1)
          (fun b hb => hnn b (List.mem_cons_of_mem o hb))
          (fun b hb => hend b (List.mem_cons_of_mem o hb)) w hw2
    · rw [if_neg h] at hw
      exact ih (max cursor (openEnd o)) id
        (fun b hb => hnn b (List.mem_cons_of_mem o hb))
        (fun b hb => hend b (List.mem_cons_of_mem o hb)) w hw

lemma carve_sup (axis : WallAxis) (start stop : Vec3) (color : String) :
    ∀ (l : List WallOpening) (cursor : ℚ) (id : Nat),
      (∀ o ∈ l, cursor ≤ openStart o) →
      List.Pairwise (fun a b => openEnd a ≤ openStart b) l →
      ∀ q : ℚ, cursor < q → q ≤ axisCoord axis stop →
        coveredBy axis (carveLoop axis start stop color cursor id l) l q := by
  intro l
  induction l with
  | nil =>
    intro cursor id _ _ q hq1 hq2
    simp only [coveredBy]
    left
    refine ⟨⟨id, pointOn axis cursor start,
      pointOn axis (axisCoord axis stop) stop, WALL_HEIGHT, color⟩, ?_, ?_, ?_⟩
    · simp only [carveLoop]
      rw [if_pos (lt_of_lt_of_le hq1 hq2)]
      simp
    · simpa [axisCoord_pointOn] using le_of_lt hq1
    · simpa [axisCoord_pointOn] using hq2
  | cons o rest ih =>
    intro cursor id hcur hpair q hq1 hq2
    simp only [coveredBy]
    by_cases hqs : q ≤ openStart o
    · have hcs : cursor < openStart o := lt_of_lt_of_le hq1 hqs
      left
      refine ⟨⟨id, pointOn axis cursor start, pointOn axis (openStart o) stop,
        WALL_HEIGHT, color⟩, ?_, ?_, ?_⟩
      · simp only [carveLoop]
        rw [if_pos hcs]
        exact List.mem_cons_self _ _
      · simpa [axisCoord_pointOn] using le_of_lt hq1
      · simpa [axisCoord_pointOn] using hqs
    · by_cases hqe : q ≤ openEnd o
      · right
        exact ⟨o, List.mem_cons_self o rest, le_of_lt (lt_of_not_le hqs), hqe⟩
      · have hcur2 : ∀ o2 ∈ rest, max cursor (openEnd o) ≤ openStart o2 := by
          intro o2 h2
          exact max_le (hcur o2 (List.mem_cons_of_mem o h2))
            ((List.pairwise_cons.mp hpair).1 o2 h2)
        have hpair2 := (List.pairwise_cons.mp hpair).2
        have hmaxq : max cursor (openEnd o) < q :=
          max_lt hq1 (lt_of_not_le hqe)
        by_cases hc : cursor < openStart o
        · have hrec := ih (max cursor (openEnd o)) (id + 1) hcur2 hpair2 q
            hmaxq hq2
          simp only [coveredBy] at hrec
          simp only [carveLoop]
          rw [if_pos hc]
          rcases hrec with ⟨w, hw, hb⟩ | ⟨o2, ho2, hb⟩
          · exact Or.inl ⟨w, List.mem_cons_of_mem _ hw, hb⟩
          · exact Or.inr ⟨o2, List.mem_cons_of_mem o ho2, hb⟩
        · have hrec := ih (max cursor (openEnd o)) id hcur2 hpair2 q hmaxq hq2
          simp only [coveredBy] at hrec
          simp only [carveLoop]
          rw [if_neg hc]
          rcases hrec with ⟨w, hw, hb⟩ | ⟨o2, ho2, hb⟩
          · exact Or.inl ⟨w, hw, hb⟩
          · exact Or.inr ⟨o2, List.mem_cons_of_mem o ho2, hb⟩

lemma carve_cursor_covered (axis : WallAxis) (start stop : Vec3) (color : String)
    (o : WallOpening) (rest : List WallOpening) (cursor : ℚ) (id : Nat)
    (hnn : 0 ≤ o.width) (hc : cursor ≤ openStart o) :
    coveredBy axis (carveLoop axis start stop color cursor id (o :: rest))
      (o :: rest) cursor := by
  simp only [coveredBy]
  by_cases h : cursor < openStart o
  · left
    refine ⟨⟨id, pointOn axis cursor start, pointOn axis (openStart o) stop,
      WALL_HEIGHT, color⟩, ?_, ?_, ?_⟩
    · simp only [carveLoop]
      rw [if_pos h]
      exact List.mem_cons_self _ _
    · simp [axisCoord_pointOn]
    · simpa [axisCoord_pointOn] using le_of_lt h
  · right
    have heq : cursor = openStart o := le_antisymm hc (not_lt.mp h)
    refine ⟨o, List.mem_cons_self o rest, le_of_eq heq.symm, ?_⟩
    rw [heq]
    exact openStart_le_openEnd hnn

lemma carve_sum (axis : WallAxis) (start stop : Vec3) (color : String) :
    ∀ (l : List WallOpening) (cursor : ℚ) (id : Nat),
      (∀ o ∈ l, 0 ≤ o.width) →
      (∀ o ∈ l, cursor ≤ openStart o) →
      (∀ o ∈ l, openEnd o ≤ axisCoord axis stop) →
      List.Pairwise (fun a b => openEnd a ≤ openStart b) l →
      cursor ≤ axisCoord axis stop →
      ((carveLoop axis start stop color cursor id l).map
          (fun w => axisCoord axis w.stop - axisCoord axis w.start)).sum
        + (l.map (fun o => o.width)).sum
        = axisCoord axis stop - cursor := by
  intro l
  induction l with
  | nil =>
    intro cursor id _ _ _ _ hcw
    simp only [carveLoop]
    by_cases h : cursor < axisCoord axis stop
    · rw [if_pos h]
      simp [axisCoord_pointOn]
    · rw [if_neg h]
      have heq : cursor = axisCoord axis stop := le_antisymm hcw (not_lt.mp h)
      simp [heq]
  | cons o rest ih =>
    intro cursor id hnn hcur hend hpair hcw
    have hso : cursor ≤ openStart o := hcur o (List.mem_cons_self o rest)
    have hoo : openStart o ≤ openEnd o :=
      openStart_le_openEnd (hnn o (List.mem_cons_self o rest))
    have heo : openEnd o ≤ axisCoord axis stop := hend o (List.mem_cons_self o rest)
    have hnn2 : ∀ b ∈ rest, 0 ≤ b.width :=
      fun b hb => hnn b (List.mem_cons_of_mem o hb)
    have hcur2 : ∀ o2 ∈ rest, max cursor (openEnd o) ≤ openStart o2 := by
      intro o2 h2
      exact max_le (hcur o2 (List.mem_cons_of_mem o h2))
        ((List.pairwise_cons.mp hpair).1 o2 h2)
    have hend2 : ∀ b ∈ rest, openEnd b ≤ axisCoord axis stop :=
      fun b hb => hend b (List.mem_cons_of_mem o hb)
    have hpair2 := (List.pairwise_cons.mp hpair).2
    have hmax : max cursor (openEnd o) = openEnd o :=
      max_eq_right (le_trans hso hoo)
    have hwidth : o.width = openEnd o - openStart o := by
      unfold openStart openEnd
      ring
    simp only [carveLoop]
    by_cases h : cursor < openStart o
    · rw [if_pos h, hmax]
      have hrec := ih (openEnd o) (id + 1) hnn2
        (fun o2 h2 => by rw [← hmax]; exact hcur2 o2 h2) hend2 hpair2 heo
      simp only [List.map_cons, List.sum_cons, axisCoord_pointOn]
      linarith
    · rw [if_neg h, hmax]
      have hceq : cursor = openStart o := le_antisymm hso (not_lt.mp h)
      have hrec := ih (openEnd o) id hnn2
        (fun o2 h2 => by rw [← hmax]; exact hcur2 o2 h2) hend2 hpair2 heo
      simp only [List.map_cons, List.sum_cons]
      linarith

lemma chain_disj_forall :
    ∀ (a : WallOpening) (l : List WallOpening),
      (∀ o ∈ a :: l, 0 ≤ o.width) →
      List.Chain' (fun x y => openEnd x ≤ openStart y) (a :: l) →
      ∀ b ∈ l, openEnd a ≤ openStart b := by
  intro a l
  induction l generalizing a with
  | nil =>
    intro _ _ b hb
    simp at hb
  | cons c t ih =>
    intro hnn hc b hb
    have h1 : openEnd a ≤ openStart c := (List.chain'_cons.mp hc).1
    rcases List.mem_cons.mp hb with rfl | hbt
    · exact h1
    · have h2 := ih c (fun o ho => hnn o (List.mem_cons_of_mem a ho))
        (List.chain'_cons.mp hc).2 b hbt
      have h3 : openStart c ≤ openEnd c :=
        openStart_le_openEnd (hnn c (by simp))
      linarith

lemma chain_disj_pairwise :
    ∀ (l : List WallOpening), (∀ o ∈ l, 0 ≤ o.width) →
      List.Chain' (fun x y => openEnd x ≤ openStart y) l →
      List.Pairwise (fun x y => openEnd x ≤ openStart y) l := by
  intro l
  induction l with
  | nil =>
    intro _ _
    exact List.Pairwise.nil
  | cons a t ih =>
    intro hnn hc
    exact List.Pairwise.cons (chain_disj_forall a t hnn hc)
      (ih (fun o ho => hnn o (List.mem_cons_of_mem a ho)) hc.tail)

lemma disj_sorted (l : List WallOpening) (hnn : ∀ o ∈ l, 0 ≤ o.width)
    (hc : List.Chain' (fun x y => openEnd x ≤ openStart y) l) :
    List.insertionSort (fun a b => a.position ≤ b.position) l = l := by
  apply List.Sorted.insertionSort_eq
  have hp := chain_disj_pairwise l hnn hc
  show List.Pairwise (fun a b => a.position ≤ b.position) l
  refine List.Pairwise.imp_of_mem ?_ hp
  intro a b ha hb hab
  have h1 : 0 ≤ a.width := hnn a ha
  have h2 : 0 ≤ b.width := hnn b hb
  unfold openStart openEnd at hab
  linarith

/-- C3 counterexample: on the wall side `[0,4]` with the single opening
centered at 0 of width 4 (interval `[-2,2]`, sticking out of the side), the
union of the emitted spans and the opening intervals does not equal the
side's interval: the point `-1` is covered by the opening but lies outside
`[0,4]`.  The claim as stated (for *every* non-overlapping opening list)
is therefore false. -/
theorem c3_counterexample :
    ¬ (∀ q : ℚ,
      coveredBy WallAxis.x
        (createWallWithOpenings 0 ⟨0, 0, 0⟩ ⟨4, 0, 0⟩ WallAxis.x
          [⟨0, 4⟩] ("#fff"))
        [⟨0, 4⟩] q ↔
      ((0 : ℚ) ≤ q ∧ q ≤ 4)) := by
  intro hall
  have hcov : coveredBy WallAxis.x
      (createWallWithOpenings 0 ⟨0, 0, 0⟩ ⟨4, 0, 0⟩ WallAxis.x
        [⟨0, 4⟩] ("#fff"))
      [⟨0, 4⟩] (-1) := by
    simp only [coveredBy]
    right
    refine ⟨⟨0, 4⟩, List.mem_singleton.mpr rfl, ?_, ?_⟩
    · show (0 : ℚ) - 4 / 2 ≤ -1
      norm_num
    · show (-1 : ℚ) ≤ 0 + 4 / 2
      norm_num
  have h := (hall (-1)).mp hcov
  linarith [h.1]

/-- C3 (amended): for every wall side and every list of openings with
nonnegative widths that are pairwise non-overlapping (sorted by position)
*and whose intervals lie within the side's interval*, the carve emits at
most N+1 solid spans; the union of the emitted spans and the opening
intervals is exactly the side's interval (pointwise), with no
double-covered sub-interval (the span lengths and opening widths sum
exactly to the side's length); and with zero openings exactly one span
equal to the full side is emitted.  (The containment proviso is forced by
the counterexample: an opening sticking out of the side makes the union
strictly larger than the side.) -/
theorem c3_carve_coverage (startId : Nat) (start stop : Vec3) (axis : WallAxis)
    (openings : List WallOpening) (color : String)
    (hnn : ∀ o ∈ openings, 0 ≤ o.width)
    (hchain : List.Chain' (fun a b => openEnd a ≤ openStart b) openings)
    (hin : ∀ o ∈ openings, axisCoord axis start ≤ openStart o ∧
      openEnd o ≤ axisCoord axis stop) :
    (createWallWithOpenings startId start stop axis openings color).length
      ≤ openings.length + 1 ∧
    (∀ q : ℚ,
      coveredBy axis
        (createWallWithOpenings startId start stop axis openings color)
        openings q ↔
      (axisCoord axis start ≤ q ∧ q ≤ axisCoord axis stop)) ∧
    ((createWallWithOpenings startId start stop axis openings color).map
        (fun w => axisCoord axis w.stop - axisCoord axis w.start)).sum
      + (openings.map (fun o => o.width)).sum
      = axisCoord axis stop - axisCoord axis start ∧
    (openings = [] →
      createWallWithOpenings startId start stop axis openings color
        = [⟨startId, start, stop, WALL_HEIGHT, color⟩]) := by
  cases openings with
  | nil =>
    refine ⟨?_, ?_, ?_, fun _ => rfl⟩
    · simp [createWallWithOpenings]
    · intro q
      simp [createWallWithOpenings, coveredBy]
    · simp [createWallWithOpenings]
  | cons o rest =>
    have hne : createWallWithOpenings startId start stop axis (o :: rest) color
        = carveLoop axis start stop color (axisCoord axis start) startId
            (o :: rest) := by
      unfold createWallWithOpenings
      rw [if_neg (by simp), disj_sorted (o :: rest) hnn hchain]
    have hpair := chain_disj_pairwise (o :: rest) hnn hchain
    have hcur : ∀ o2 ∈ (o :: rest), axisCoord axis start ≤ openStart o2 :=
      fun o2 h2 => (hin o2 h2).1
    have hend : ∀ o2 ∈ (o :: rest), openEnd o2 ≤ axisCoord axis stop :=
      fun o2 h2 => (hin o2 h2).2
    have hcw : axisCoord axis start ≤ axisCoord axis stop := by
      have h1 := hcur o (List.mem_cons_self o rest)
      have h2 := hend o (List.mem_cons_self o rest)
      have h3 := openStart_le_openEnd (hnn o (List.mem_cons_self o rest))
      linarith
    rw [hne]
    refine ⟨carve_len axis start stop color (o :: rest) _ _, ?_,
      carve_sum axis start stop color (o :: rest) _ _ hnn hcur hend hpair hcw,
      fun hemp => by simp at hemp⟩
    intro q
    constructor
    · intro hcov
      simp only [coveredBy] at hcov
      rcases hcov with ⟨w, hw, hb1, hb2⟩ | ⟨o2, ho2, hb1, hb2⟩
      · exact ⟨le_trans
          (carve_start_ge axis start stop color (o :: rest) _ _ w hw) hb1,
          le_trans hb2
            (carve_stop_le axis start stop color (o :: rest) _ _ hnn hend w hw)⟩
      · exact ⟨le_trans (hcur o2 ho2) hb1, le_trans hb2 (hend o2 ho2)⟩
    · rintro ⟨hq1, hq2⟩
      rcases eq_or_lt_of_le hq1 with heq | hlt
      · rw [← heq]
        exact carve_cursor_covered axis start stop color o rest _ startId
          (hnn o (List.mem_cons_self o rest)) (hcur o (List.mem_cons_self o rest))
      · exact carve_sup axis start stop color (o :: rest) _ _ hcur hpair q
          hlt hq2

/-- Witness for C3 at Scenario C of the spec: wall side `[0,14]` with
openings at 2 and 10, each of width 4. -/
theorem c3_carve_coverage_witness :
    (createWallWithOpenings 7 ⟨0, 0, 0⟩ ⟨14, 0, 0⟩ WallAxis.x
        [⟨2, 4⟩, ⟨10, 4⟩] ("#abc")).length
      ≤ ([(⟨2, 4⟩ : WallOpening), ⟨10, 4⟩]).length + 1 ∧
    (∀ q : ℚ,
      coveredBy WallAxis.x
        (createWallWithOpenings 7 ⟨0, 0, 0⟩ ⟨14, 0, 0⟩ WallAxis.x
          [⟨2, 4⟩, ⟨10, 4⟩] ("#abc"))
        [⟨2, 4⟩, ⟨10, 4⟩] q ↔
      (axisCoord WallAxis.x ⟨0, 0, 0⟩ ≤ q ∧
        q ≤ axisCoord WallAxis.x ⟨14, 0, 0⟩)) ∧
    ((createWallWithOpenings 7 ⟨0, 0, 0⟩ ⟨14, 0, 0⟩ WallAxis.x
        [⟨2, 4⟩, ⟨10, 4⟩] ("#abc")).map
        (fun w => axisCoord WallAxis.x w.stop - axisCoord WallAxis.x w.start)).sum
      + (([(⟨2, 4⟩ : WallOpening), ⟨10, 4⟩]).map (fun o => o.width)).sum
      = axisCoord WallAxis.x ⟨14, 0, 0⟩ - axisCoord WallAxis.x ⟨0, 0, 0⟩ ∧
    (([(⟨2, 4⟩ : WallOpening), ⟨10, 4⟩]) = [] →
      createWallWithOpenings 7 ⟨0, 0, 0⟩ ⟨14, 0, 0⟩ WallAxis.x
        [⟨2, 4⟩, ⟨10, 4⟩] ("#abc")
        = [⟨7, ⟨0, 0, 0⟩, ⟨14, 0, 0⟩, WALL_HEIGHT, ("#abc")⟩]) :=
  c3_carve_coverage 7 ⟨0, 0, 0⟩ ⟨14, 0, 0⟩ WallAxis.x [⟨2, 4⟩, ⟨10, 4⟩] ("#abc")
    (by norm_num [List.forall_mem_cons])
    (by norm_num [List.chain'_cons, List.chain'_singleton, openEnd, openStart])
    (by norm_num [List.forall_mem_cons, openStart, openEnd, axisCoord])

/-- C9 counterexample: on the wall side `[0,10]` with one opening of
*negative* width (position 5, width −4, so `openingStart = 7 >
openingEnd = 3`), the carve emits the spans `[0,7]` and `[3,10]`, which
overlap: the emitted spans are neither pairwise disjoint nor strictly
increasing.  The claim as stated (for *every* list of openings) is
therefore false. -/
theorem c9_counterexample :
    ¬ List.Pairwise
      (fun w1 w2 =>
        axisCoord WallAxis.x w1.stop ≤ axisCoord WallAxis.x w2.start)
      (createWallWithOpenings 0 ⟨0, 0, 0⟩ ⟨10, 0, 0⟩ WallAxis.x
        [⟨5, -4⟩] ("#fff")) := by
  intro h
  have hres : createWallWithOpenings 0 ⟨0, 0, 0⟩ ⟨10, 0, 0⟩ WallAxis.x
      [⟨5, -4⟩] ("#fff")
      = [⟨0, ⟨0, 0, 0⟩, ⟨7, 0, 0⟩, WALL_HEIGHT, ("#fff")⟩,
         ⟨1, ⟨3, 0, 0⟩, ⟨10, 0, 0⟩, WALL_HEIGHT, ("#fff")⟩] := by
    unfold createWallWithOpenings
    rw [if_neg (by simp)]
    rw [show List.insertionSort (fun (a b : WallOpening) =>
        a.position ≤ b.position) [(⟨5, -4⟩ : WallOpening)] = [⟨5, -4⟩] from rfl]
    unfold carveLoop
    rw [if_pos (by norm_num [openStart, axisCoord])]
    unfold carveLoop
    rw [if_pos (by norm_num [openEnd, axisCoord])]
    norm_num [openStart, openEnd, axisCoord, pointOn, max_def]
  rw [hres] at h
  have h12 := (List.pairwise_cons.mp h).1 _ (List.mem_cons_self _ _)
  simp only [axisCoord] at h12
  norm_num at h12

/-- C9 (amended): for every wall side of positive length along its axis and
every list of openings *with nonnegative widths* — including overlapping or
unsorted ones — every solid span emitted by the carve has strictly positive
length along the wall axis, and the emitted spans are pairwise disjoint and
appear in increasing order along the wall (each span ends no later than the
next begins; the cursor only advances, and a span is only emitted when the
cursor is strictly left of its end).  (The nonnegative-width proviso is
forced by the counterexample: a negative-width opening makes consecutive
spans overlap.) -/
theorem c9_carve_spans_ordered (startId : Nat) (start stop : Vec3)
    (axis : WallAxis) (openings : List WallOpening) (color : String)
    (hnn : ∀ o ∈ openings, 0 ≤ o.width)
    (hside : axisCoord axis start < axisCoord axis stop) :
    (∀ w ∈ createWallWithOpenings startId start stop axis openings color,
      axisCoord axis w.start < axisCoord axis w.stop) ∧
    List.Pairwise
      (fun w1 w2 => axisCoord axis w1.stop ≤ axisCoord axis w2.start)
      (createWallWithOpenings startId start stop axis openings color) := by
  cases openings with
  | nil =>
    constructor
    · intro w hw
      simp only [createWallWithOpenings, List.length_nil, if_true,
        List.mem_singleton] at hw
      subst hw
      exact hside
    · simp [createWallWithOpenings]
  | cons o rest =>
    have hne : createWallWithOpenings startId start stop axis (o :: rest) color
        = carveLoop axis start stop color (axisCoord axis start) startId
            (List.insertionSort (fun a b => a.position ≤ b.position)
              (o :: rest)) := by
      unfold createWallWithOpenings
      rw [if_neg (by simp)]
    have hnns : ∀ o2 ∈ List.insertionSort (fun a b => a.position ≤ b.position)
        (o :: rest), 0 ≤ o2.width := by
      intro o2 h2
      exact hnn o2 ((List.perm_insertionSort
        (fun a b => a.position ≤ b.position) (o :: rest)).subset h2)
    rw [hne]
    exact ⟨carve_pos axis start stop color _ _ _,
      carve_pairwise axis start stop color _ _ _ hnns⟩

/-- Witness for C9: wall side `[0,14]` with *unsorted* openings at 10 and
2, each of width 4. -/
theorem c9_carve_spans_ordered_witness :
    (∀ w ∈ createWallWithOpenings 3 ⟨0, 0, 0⟩ ⟨14, 0, 0⟩ WallAxis.x
        [⟨10, 4⟩, ⟨2, 4⟩] ("#abc"),
      axisCoord WallAxis.x w.start < axisCoord WallAxis.x w.stop) ∧
    List.Pairwise
      (fun w1 w2 =>
        axisCoord WallAxis.x w1.stop ≤ axisCoord WallAxis.x w2.start)
      (createWallWithOpenings 3 ⟨0, 0, 0⟩ ⟨14, 0, 0⟩ WallAxis.x
        [⟨10, 4⟩, ⟨2, 4⟩] ("#abc")) :=
  c9_carve_spans_ordered 3 ⟨0, 0, 0⟩ ⟨14, 0, 0⟩ WallAxis.x
    [⟨10, 4⟩, ⟨2, 4⟩] ("#abc") (by norm_num [List.forall_mem_cons])
    (by norm_num [axisCoord])

/-! ## C7: objects with unresolved target tags -/

/-- The scene object pushed for a ready asset whose position resolution
fell through: world origin, default prop scale, no POI binding. -/
def originObj (asset : GeneratedAsset) : SceneObject :=
  ⟨"obj_" ++ asset.id, asset.id, asset.name, asset.path, ⟨0, 0, 0⟩, ⟨0, 0, 0⟩,
    SCALE_PROP, none⟩

/-- Input level for the C7 counterexample: no room carries the tag
`treasure`. -/
def c7Level : GridLevelData :=
  ⟨"L", "t", "th", none,
   [⟨"r1", "a", 0, 0, 4, 3, some (["entry"])⟩,
    ⟨"r2", "b", 0, 6, 4, 3, some (["goal"])⟩],
   [], [], []⟩

/-- A ready prop asset for the C7 counterexample. -/
def c7Asset : GeneratedAsset := ⟨"prop1", "Chest", "prop", "/m.glb", "ready"⟩

/-- Context for the C7 counterexample: the prop's placement tag `treasure`
resolves to no room. -/
def c7Context : GameContext :=
  ⟨[], some [⟨"prop1", "Chest", some (["treasure"])⟩]⟩

/-- C7 counterexample: a ready prop whose target tag resolves to no room is
*not* absent from the returned placement list — the placer still pushes an
object for it, at the world origin with the default prop scale.  The claim
as stated (silently skipped, absent from the list) is therefore false. -/
theorem c7_counterexample :
    positionGridObjects (fun _ => 0) (fun _ => 0) c7Level [c7Asset] c7Context
      = [⟨"obj_prop1", "prop1", "Chest", "/m.glb", ⟨0, 0, 0⟩, ⟨0, 0, 0⟩,
          SCALE_PROP, none⟩] := by
  rfl

lemma positionLoop_mem (arcX arcZ : Nat → ℚ) (level : GridLevelData)
    (context : GameContext) (spawnPOI goalPOI : Option GridPOI)
    (asset : GeneratedAsset) (obj : SceneObject)
    (hobj : ∀ counts,
      (placeAsset arcX arcZ level context spawnPOI goalPOI counts asset).2
        = [obj]) :
    ∀ (assets : List GeneratedAsset) (counts : List (String × Nat)),
      asset ∈ assets →
      obj ∈ positionLoop arcX arcZ level context spawnPOI goalPOI counts
        assets := by
  intro assets
  induction assets with
  | nil =>
    intro counts h
    simp at h
  | cons a rest ih =>
    intro counts h
    simp only [positionLoop]
    rcases List.mem_cons.mp h with rfl | hmem
    · rw [hobj counts]
      exact List.mem_append_left _ (List.mem_singleton.mpr rfl)
    · exact List.mem_append_right _ (ih _ hmem)

lemma placeAsset_prop_unresolved (arcX arcZ : Nat → ℚ) (level : GridLevelData)
    (context : GameContext) (spawnPOI goalPOI : Option GridPOI)
    (counts : List (String × Nat)) (asset : GeneratedAsset) (prop : GameProp)
    (hready : asset.status = "ready") (hpath : asset.path ≠ "")
    (hchar : context.characters.find? (fun c => c.id == asset.id) = none)
    (hprop : (context.props.getD []).find?
      (fun (p : GameProp) => p.id == asset.id) = some prop)
    (hroom : level.rooms.find? (fun r => (r.tags.getD []).contains
      (match (prop.placement_tags.getD []).head? with
       | none => "mid"
       | some t => if t == "" then "mid" else t)) = none) :
    (placeAsset arcX arcZ level context spawnPOI goalPOI counts asset).2
      = [originObj asset] := by
  unfold placeAsset
  rw [if_neg (by simp [hready, hpath])]
  simp only [hchar, hprop]
  unfold resolveProp
  simp only [hroom]
  rfl

lemma placeAsset_npc_no_mid (arcX arcZ : Nat → ℚ) (level : GridLevelData)
    (context : GameContext) (spawnPOI goalPOI : Option GridPOI)
    (counts : List (String × Nat)) (asset : GeneratedAsset) (ch : Character)
    (hready : asset.status = "ready") (hpath : asset.path ≠ "")
    (hchar : context.characters.find? (fun c => c.id == asset.id) = some ch)
    (hrole1 : ch.role ≠ "protagonist") (hrole2 : ch.role ≠ "antagonist")
    (hmid : level.rooms.find?
      (fun r => (r.tags.getD []).contains ("mid")) = none) :
    (placeAsset arcX arcZ level context spawnPOI goalPOI counts asset).2
      = [originObj asset] := by
  unfold placeAsset
  rw [if_neg (by simp [hready, hpath])]
  simp only [hchar]
  unfold resolveCharacter
  rw [if_neg (by simp [hrole1]), if_neg (by simp [hrole2])]
  simp only [hmid]
  rfl

/-- C7 (amended): a ready object whose target tag resolves to no room (a
prop whose first placement tag matches no room, or a generic secondary
character when no room is tagged `mid`) is *not* dropped and raises no
error: the placer still emits a placement for it, positioned at the world
origin `[0,0,0]`, with the default prop scale and no POI binding.  (The
claim's "absent from the returned placement list" is refuted by the
counterexample; the push is unconditional for ready assets.) -/
theorem c7_unresolved_target_placed (arcX arcZ : Nat → ℚ)
    (level : GridLevelData) (assets : List GeneratedAsset)
    (context : GameContext) (asset : GeneratedAsset)
    (hmem : asset ∈ assets)
    (hready : asset.status = "ready") (hpath : asset.path ≠ "")
    (hcase :
      (∃ prop : GameProp,
        context.characters.find? (fun c => c.id == asset.id) = none ∧
        (context.props.getD []).find?
          (fun (p : GameProp) => p.id == asset.id) = some prop ∧
        level.rooms.find? (fun r => (r.tags.getD []).contains
          (match (prop.placement_tags.getD []).head? with
           | none => "mid"
           | some t => if t == "" then "mid" else t)) = none) ∨
      (∃ ch : Character,
        context.characters.find? (fun c => c.id == asset.id) = some ch ∧
        ch.role ≠ "protagonist" ∧ ch.role ≠ "antagonist" ∧
        level.rooms.find?
          (fun r => (r.tags.getD []).contains ("mid")) = none)) :
    originObj asset ∈ positionGridObjects arcX arcZ level assets context := by
  unfold positionGridObjects
  apply positionLoop_mem arcX arcZ level context _ _ asset (originObj asset)
    _ assets [] hmem
  intro counts
  rcases hcase with ⟨prop, hchar, hprop, hroom⟩ | ⟨ch, hchar, hr1, hr2, hmid⟩
  · exact placeAsset_prop_unresolved arcX arcZ level context _ _ counts asset
      prop hready hpath hchar hprop hroom
  · exact placeAsset_npc_no_mid arcX arcZ level context _ _ counts asset ch
      hready hpath hchar hr1 hr2 hmid

/-- Witness for C7 at the concrete prop with unresolvable tag `treasure`. -/
theorem c7_unresolved_target_placed_witness :
    originObj c7Asset ∈ positionGridObjects (fun _ => 0) (fun _ => 0) c7Level
      [c7Asset] c7Context :=
  c7_unresolved_target_placed (fun _ => 0) (fun _ => 0) c7Level [c7Asset]
    c7Context c7Asset (List.mem_singleton.mpr rfl) (by rfl) (by simp [c7Asset])
    (Or.inl ⟨⟨"prop1", "Chest", some (["treasure"])⟩, by rfl, by rfl, by rfl⟩)

/-! ## C8: camera framing -/

lemma foldl_min_le (f : GridRoom → ℚ) :
    ∀ (l : List GridRoom) (a : ℚ),
      (l.foldl (fun m r => min m (f r)) a) ≤ a ∧
      ∀ r ∈ l, (l.foldl (fun m r => min m (f r)) a) ≤ f r := by
  intro l
  induction l with
  | nil =>
    intro a
    exact ⟨le_refl a, by simp⟩
  | cons x t ih =>
    intro a
    constructor
    · exact le_trans (ih (min a (f x))).1 (min_le_left _ _)
    · intro r hr
      rcases List.mem_cons.mp hr with rfl | hrt
      · exact le_trans (ih (min a (f r))).1 (min_le_right _ _)
      · exact (ih (min a (f x))).2 r hrt

lemma foldl_min_mem (f : GridRoom → ℚ) :
    ∀ (l : List GridRoom) (a : ℚ),
      (l.foldl (fun m r => min m (f r)) a) = a ∨
      ∃ r ∈ l, (l.foldl (fun m r => min m (f r)) a) = f r := by
  intro l
  induction l with
  | nil =>
    intro a
    exact Or.inl rfl
  | cons x t ih =>
    intro a
    rcases ih (min a (f x)) with h | ⟨r, hr, he⟩
    · rcases le_total a (f x) with hle | hle
      · left
        rw [show List.foldl (fun m r => min m (f r)) a (x :: t)
            = List.foldl (fun m r => min m (f r)) (min a (f x)) t from rfl,
          h, min_eq_left hle]
      · right
        refine ⟨x, List.mem_cons_self x t, ?_⟩
        rw [show List.foldl (fun m r => min m (f r)) a (x :: t)
            = List.foldl (fun m r => min m (f r)) (min a (f x)) t from rfl,
          h, min_eq_right hle]
    · right
      exact ⟨r, List.mem_cons_of_mem x hr, he⟩

lemma foldl_max_ge (f : GridRoom → ℚ) :
    ∀ (l : List GridRoom) (a : ℚ),
      a ≤ (l.foldl (fun m r => max m (f r)) a) ∧
      ∀ r ∈ l, f r ≤ (l.foldl (fun m r => max m (f r)) a) := by
  intro l
  induction l with
  | nil =>
    intro a
    exact ⟨le_refl a, by simp⟩
  | cons x t ih =>
    intro a
    constructor
    · exact le_trans (le_max_left _ _) (ih (max a (f x))).1
    · intro r hr
      rcases List.mem_cons.mp hr with rfl | hrt
      · exact le_trans (le_max_right _ _) (ih (max a (f r))).1
      · exact (ih (max a (f x))).2 r hrt

lemma foldl_max_mem (f : GridRoom → ℚ) :
    ∀ (l : List GridRoom) (a : ℚ),
      (l.foldl (fun m r => max m (f r)) a) = a ∨
      ∃ r ∈ l, (l.foldl (fun m r => max m (f r)) a) = f r := by
  intro l
  induction l with
  | nil =>
    intro a
    exact Or.inl rfl
  | cons x t ih =>
    intro a
    rcases ih (max a (f x)) with h | ⟨r, hr, he⟩
    · rcases le_total (f x) a with hle | hle
      · left
        rw [show List.foldl (fun m r => max m (f r)) a (x :: t)
            = List.foldl (fun m r => max m (f r)) (max a (f x)) t from rfl,
          h, max_eq_left hle]
      · right
        refine ⟨x, List.mem_cons_self x t, ?_⟩
        rw [show List.foldl (fun m r => max m (f r)) a (x :: t)
            = List.foldl (fun m r => max m (f r)) (max a (f x)) t from rfl,
          h, max_eq_right hle]
    · right
      exact ⟨r, List.mem_cons_of_mem x hr, he⟩

/-- Level for the C8 counterexample: one room 25×1 cells (world box
100×4). -/
def c8LevelA : GridLevelData :=
  ⟨"A", "t", "th", none, [⟨"r1", "a", 0, 0, 25, 1, none⟩], [], [], []⟩

/-- Level for the C8 counterexample: one room 1×25 cells (world box
4×100). -/
def c8LevelB : GridLevelData :=
  ⟨"B", "t", "th", none, [⟨"r1", "a", 0, 0, 1, 25, none⟩], [], [], []⟩

/-- C8 counterexample: the two levels have the same `max(boxWidth,
boxDepth)` (100 world units), but the camera distance produced by the code
differs (`max_distance` 80 vs 200), because the code computes the distance
as `max(40, boxDepth)` — from the depth alone — not from
`max(boxWidth, boxDepth)`.  The claim's statement that the camera distance
scales with `max(boxWidth, boxDepth)` is therefore false. -/
theorem c8_counterexample :
    max (camMaxX c8LevelA.rooms - camMinX c8LevelA.rooms)
        (camMaxZ c8LevelA.rooms - camMinZ c8LevelA.rooms)
      = max (camMaxX c8LevelB.rooms - camMinX c8LevelB.rooms)
        (camMaxZ c8LevelB.rooms - camMinZ c8LevelB.rooms) ∧
    (configureGridCamera c8LevelA).max_distance
      ≠ (configureGridCamera c8LevelB).max_distance := by
  constructor
  · norm_num [c8LevelA, c8LevelB, camMinX, camMaxX, camMinZ, camMaxZ,
      gridToWorldX, gridToWorldZ, GRID_CELL_SIZE]
  · norm_num [c8LevelA, c8LevelB, configureGridCamera, camMinX, camMaxX,
      camMinZ, camMaxZ, gridToWorldX, gridToWorldZ, GRID_CELL_SIZE, max_def]

/-- C8 (amended): for every level with at least one room, the camera
targets the center of the axis-aligned bounding box over all room
world-rectangles, the camera *height* scales with
`max(boxWidth, boxDepth)` subject to the fixed minimum 30
(`height = max(30, 0.8·max(boxWidth, boxDepth))`), and the camera
*distance* scales with the box depth alone subject to the fixed minimum 40
(`distance = max(40, boxDepth)`; the camera sits at `maxZ + distance/2`
and the orbit range extends to `2·distance`).  (The claim's statement that
the distance scales with `max(boxWidth, boxDepth)` is refuted by the
counterexample.) -/
theorem c8_camera_framing (level : GridLevelData) (r0 : GridRoom)
    (rest : List GridRoom) (hrooms : level.rooms = r0 :: rest) :
    ∃ mnX mxX mnZ mxZ : ℚ,
      (∀ r ∈ level.rooms,
        mnX ≤ gridToWorldX r.gridX ∧ gridToWorldX (r.gridX + r.width) ≤ mxX ∧
        mnZ ≤ gridToWorldZ r.gridY ∧
        gridToWorldZ (r.gridY + r.height) ≤ mxZ) ∧
      (∃ r ∈ level.rooms, gridToWorldX r.gridX = mnX) ∧
      (∃ r ∈ level.rooms, gridToWorldX (r.gridX + r.width) = mxX) ∧
      (∃ r ∈ level.rooms, gridToWorldZ r.gridY = mnZ) ∧
      (∃ r ∈ level.rooms, gridToWorldZ (r.gridY + r.height) = mxZ) ∧
      configureGridCamera level =
        { default :=
            { position := ⟨(mnX + mxX) / 2,
                max 30 (max (mxX - mnX) (mxZ - mnZ) * (4/5)),
                mxZ + (max 40 (mxZ - mnZ)) * (1/2)⟩
              look_at := ⟨(mnX + mxX) / 2, 0, (mnZ + mxZ) / 2⟩
              fov := 60 }
          orbit_target := ⟨(mnX + mxX) / 2, 0, (mnZ + mxZ) / 2⟩
          min_distance := 10
          max_distance := (max 40 (mxZ - mnZ)) * 2 } := by
  refine ⟨camMinX level.rooms, camMaxX level.rooms, camMinZ level.rooms,
    camMaxZ level.rooms, ?_, ?_, ?_, ?_, ?_, rfl⟩
  · intro r hr
    rw [hrooms] at hr
    rcases List.mem_cons.mp hr with rfl | hrt
    · refine ⟨?_, ?_, ?_, ?_⟩
      · rw [hrooms]
        exact (foldl_min_le (fun r2 => gridToWorldX r2.gridX) rest _).1
      · rw [hrooms]
        exact (foldl_max_ge (fun r2 => gridToWorldX (r2.gridX + r2.width))
          rest _).1
      · rw [hrooms]
        exact (foldl_min_le (fun r2 => gridToWorldZ r2.gridY) rest _).1
      · rw [hrooms]
        exact (foldl_max_ge (fun r2 => gridToWorldZ (r2.gridY + r2.height))
          rest _).1
    · refine ⟨?_, ?_, ?_, ?_⟩
      · rw [hrooms]
        exact (foldl_min_le (fun r2 => gridToWorldX r2.gridX) rest _).2 r hrt
      · rw [hrooms]
        exact (foldl_max_ge (fun r2 => gridToWorldX (r2.gridX + r2.width))
          rest _).2 r hrt
      · rw [hrooms]
        exact (foldl_min_le (fun r2 => gridToWorldZ r2.gridY) rest _).2 r hrt
      · rw [hrooms]
        exact (foldl_max_ge (fun r2 => gridToWorldZ (r2.gridY + r2.height))
          rest _).2 r hrt
  · rw [hrooms]
    rcases foldl_min_mem (fun r2 => gridToWorldX r2.gridX) rest
        (gridToWorldX r0.gridX) with h | ⟨r, hr, he⟩
    · exact ⟨r0, List.mem_cons_self r0 rest, h.symm⟩
    · exact ⟨r, List.mem_cons_of_mem r0 hr, he.symm⟩
  · rw [hrooms]
    rcases foldl_max_mem (fun r2 => gridToWorldX (r2.gridX + r2.width)) rest
        (gridToWorldX (r0.gridX + r0.width)) with h | ⟨r, hr, he⟩
    · exact ⟨r0, List.mem_cons_self r0 rest, h.symm⟩
    · exact ⟨r, List.mem_cons_of_mem r0 hr, he.symm⟩
  · rw [hrooms]
    rcases foldl_min_mem (fun r2 => gridToWorldZ r2.gridY) rest
        (gridToWorldZ r0.gridY) with h | ⟨r, hr, he⟩
    · exact ⟨r0, List.mem_cons_self r0 rest, h.symm⟩
    · exact ⟨r, List.mem_cons_of_mem r0 hr, he.symm⟩
  · rw [hrooms]
    rcases foldl_max_mem (fun r2 => gridToWorldZ (r2.gridY + r2.height)) rest
        (gridToWorldZ (r0.gridY + r0.height)) with h | ⟨r, hr, he⟩
    · exact ⟨r0, List.mem_cons_self r0 rest, h.symm⟩
    · exact ⟨r, List.mem_cons_of_mem r0 hr, he.symm⟩

/-- Witness for C8 at the concrete one-room level `c8LevelA`. -/
theorem c8_camera_framing_witness :
    ∃ mnX mxX mnZ mxZ : ℚ,
      (∀ r ∈ c8LevelA.rooms,
        mnX ≤ gridToWorldX r.gridX ∧ gridToWorldX (r.gridX + r.width) ≤ mxX ∧
        mnZ ≤ gridToWorldZ r.gridY ∧
        gridToWorldZ (r.gridY + r.height) ≤ mxZ) ∧
      (∃ r ∈ c8LevelA.rooms, gridToWorldX r.gridX = mnX) ∧
      (∃ r ∈ c8LevelA.rooms, gridToWorldX (r.gridX + r.width) = mxX) ∧
      (∃ r ∈ c8LevelA.rooms, gridToWorldZ r.gridY = mnZ) ∧
      (∃ r ∈ c8LevelA.rooms, gridToWorldZ (r.gridY + r.height) = mxZ) ∧
      configureGridCamera c8LevelA =
        { default :=
            { position := ⟨(mnX + mxX) / 2,
                max 30 (max (mxX - mnX) (mxZ - mnZ) * (4/5)),
                mxZ + (max 40 (mxZ - mnZ)) * (1/2)⟩
              look_at := ⟨(mnX + mxX) / 2, 0, (mnZ + mxZ) / 2⟩
              fov := 60 }
          orbit_target := ⟨(mnX + mxX) / 2, 0, (mnZ + mxZ) / 2⟩
          min_distance := 10
          max_distance := (max 40 (mxZ - mnZ)) * 2 } :=
  c8_camera_framing c8LevelA ⟨"r1", "a", 0, 0, 25, 1, none⟩ [] (by rfl)
